import Mathlib

/-!
# BlueZ ALSA PCM plugin (`audio/pcm_bluetooth.c`)

A shallow embedding of the data path of the plugin: the raw (HSP) read and
write transfer functions, the SBC/A2DP write transfer function with its
RTP/AVDTP flush, and the configuration handshake.

Conventions of the embedding.

* C `int`, `long` and `ssize_t` values are `Int`; unsigned quantities that the
  code only ever compares or adds (`size`, `step`, `pkt_len`, `buffer_size`)
  are `Nat`.  The arithmetic on them is exact: the host keeps `size`, the
  frame size and the ring-buffer size far below the word size, so the only
  wrap-around that is modelled is the one the code relies on, the 16-bit
  `seq_num`, and the truncations done when the RTP header is written.
* Byte arrays are `List Nat`; a pointer into an array is the list together
  with an offset.  Writes are assumed to stay inside the array, as in C.
* Everything the code obtains from the outside (the result of `send`, `recv`,
  `recvmsg`, `sbc_encode`, the ALSA calls) is an explicit argument, and
  everything it hands to the outside is a field of the result.
* The time stamps (`timestamp`, `ntimestamp`, the `ENABLE_DEBUG` blocks and
  `usleep`) are not part of the embedding.
-/

namespace PcmBluetooth

/-! ## Constants -/

/-- The size of both transfer buffers, `#define BUFFER_SIZE 2048`. -/
def BUFFER_SIZE : Nat := 2048

/-- The value of `sizeof(struct rtp_header)`: the packed header has 1 + 1 + 2 + 4 + 4 bytes. -/
def sizeof_rtp_header : Nat := 12

/-- The value of `sizeof(struct rtp_payload)`: one byte of bit fields. -/
def sizeof_rtp_payload : Nat := 1

/-- Linux `errno.h`: I/O error. -/
def EIO : Int := 5

/-- Linux `errno.h`: out of memory. -/
def ENOMEM : Int := 12

/-- Linux `errno.h`: invalid argument. -/
def EINVAL : Int := 22

/-- Linux `errno.h`: broken pipe. -/
def EPIPE : Int := 32

/-- Linux `sys/socket.h`: the socket level of ancillary data. -/
def SOL_SOCKET : Int := 1

/-- Linux `sys/socket.h`: the ancillary-data type that carries file descriptors. -/
def SCM_RIGHTS : Int := 1

/-! ## Data model -/

/-- The fields of `sbc_t` (declared in `sbc.h`) that the plugin reads or writes. -/
structure sbc_t where
  rate : Int
  channels : Int
  joint : Int
  allocation : Int
  blocks : Int
  subbands : Int
  bitpool : Int
  data : List Nat
  len : Int
deriving DecidableEq, Repr

/-- The type `struct bluetooth_a2dp`, without its time stamps and debug counters. -/
structure bluetooth_a2dp where
  sbc : sbc_t
  samples : Int
  buffer : List Nat
  count : Int
  nsamples : Int
  seq_num : Nat
  frame_count : Int
deriving DecidableEq, Repr

/-- The fields of `struct ipc_data_cfg` (declared in `ipc.h`) that the plugin uses. -/
structure ipc_data_cfg where
  fd_opt : Nat
  channels : Nat
  channel_mode : Nat
  pkt_len : Nat
  sample_size : Nat
  rate : Nat
  codec : Nat
deriving DecidableEq, Repr

/-- The type `struct bluetooth_data`; its `io` member is passed separately. -/
structure bluetooth_data where
  hw_ptr : Int
  cfg : ipc_data_cfg
  stream_fd : Int
  sock : Int
  buffer : List Nat
  count : Int
  a2dp : bluetooth_a2dp
deriving DecidableEq, Repr

/-- The fields of `snd_pcm_ioplug_t` that the transfer functions read. -/
structure snd_pcm_ioplug_t where
  nonblock : Nat
  buffer_size : Nat
  period_size : Nat
deriving DecidableEq, Repr

/-! ## Memory helpers -/

/-- Write `bytes` into `dst` starting at offset `off`.  This is the C write as
long as it stays inside the array (`off + bytes.length ≤ dst.length`, see
`store_inside`); a write that runs past the end of a C array lands in whatever
follows it (in `struct bluetooth_data` the fill count follows the buffer),
which lists do not show.  Both transfer buffers are `BUFFER_SIZE` bytes, so
statements about a copy hold for capacities up to `BUFFER_SIZE`. -/
def store (dst : List Nat) (off : Nat) (bytes : List Nat) : List Nat :=
  dst.take off ++ bytes ++ dst.drop (off + bytes.length)

/-- The call `memcpy(dst + off, src, n)`. -/
def memcpy (dst : List Nat) (off : Nat) (src : List Nat) (n : Nat) : List Nat :=
  store dst off (src.take n)

/-- The call `memset(dst, v, n)`. -/
def memset (dst : List Nat) (v : Nat) (n : Nat) : List Nat :=
  store dst 0 (List.replicate n v)

/-- The first `n` 16-bit words of `src`, each with its two bytes exchanged
(`htons` on a little-endian host). -/
def swab16 : Nat → List Nat → List Nat
  | 0, _ => []
  | n + 1, a :: b :: rest => b :: a :: swab16 n rest
  | _ + 1, _ => []

/-- The bytes that `memcpy_changeendian(dst, src, size)` writes at `dst`: the
loop runs for `i < size / 2` and converts one 16-bit word per turn. -/
def memcpy_changeendian (src : List Nat) (size : Int) : List Nat :=
  swab16 (Int.tdiv size 2).toNat src

/-! ## The RTP/AVDTP flush -/

/-- The 32-bit value `v` in network byte order (`htonl`). -/
def be32 (v : Int) : List Nat :=
  let u := (v % 4294967296).toNat
  [u / 16777216 % 256, u / 65536 % 256, u / 256 % 256, u % 256]

/-- The 13 bytes at the start of `a2dp->buffer` after `avdtp_write` has cleared
them and set `frame_count`, `v = 2`, `pt = 1`, `sequence_number`, `timestamp`
and `ssrc = 1`.  Byte 0 holds `cc:4, x:1, p:1, v:2` from the low bits up, byte 1
holds `pt:7, m:1`, byte 12 holds `frame_count:4` in its low bits. -/
def rtp_header_bytes (a : bluetooth_a2dp) : List Nat :=
  [128, 1, a.seq_num / 256 % 256, a.seq_num % 256] ++ be32 a.nsamples ++ [0, 0, 0, 1] ++
    [(a.frame_count % 16).toNat]

/-- The loop `while (count++ < 10)` of `avdtp_write`.  `left` is the number of
attempts that remain, `k` the number of the attempt, `cnt` the current value
of `a2dp->count` and `written` the result of the previous `send`.  `send k n`
is what the `k`-th `send` returns when asked for `n` bytes.  The result is the
final `written`, the final `a2dp->count` and the list of the byte counts that
were requested. -/
def avdtp_send_loop (send : Nat → Int → Int) :
    Nat → Nat → Int → Int → List Int → Int × Int × List Int
  | 0, _, cnt, written, reqs => (written, cnt, reqs)
  | left + 1, k, cnt, _, reqs =>
    let written := send k cnt
    if written = cnt then (written, cnt, reqs ++ [cnt])
    else avdtp_send_loop send left (k + 1) (cnt - written) written (reqs ++ [cnt])

/-- What `avdtp_write` leaves behind: its return value, the session data, the
byte count requested by each `send` and the buffer every `send` was given. -/
structure avdtp_result where
  ret : Int
  data : bluetooth_data
  sends : List Int
  packet : List Nat
deriving DecidableEq, Repr

/-- The function `avdtp_write`: write the header, try to send at most 10
times, then reset the packet and step the sequence number. -/
def avdtp_write (data : bluetooth_data) (send : Nat → Int → Int) : avdtp_result :=
  let a2dp := data.a2dp
  let buffer := store a2dp.buffer 0 (rtp_header_bytes a2dp)
  let r := avdtp_send_loop send 10 0 a2dp.count 0 []
  { ret := r.1
    data := { data with a2dp := { a2dp with
      buffer := buffer
      count := (sizeof_rtp_header + sizeof_rtp_payload : Nat)
      frame_count := 0
      samples := 0
      seq_num := (a2dp.seq_num + 1) % 65536 } }
    sends := r.2.2
    packet := buffer }

/-- The sequence number found in bytes 2 and 3 of a packet handed to `send`. -/
def wire_seq (packet : List Nat) : Nat :=
  packet.getD 2 0 * 256 + packet.getD 3 0

/-- A run of `n` flushes.  Before the `i`-th flush the session data goes
through `between i` (the appends of the transfer calls in between); the
`i`-th flush sees the send outcomes `sends i`. -/
def flushes (between : Nat → bluetooth_data → bluetooth_data)
    (sends : Nat → Nat → Int → Int) : Nat → Nat → bluetooth_data → List avdtp_result
  | 0, _, _ => []
  | n + 1, i, data =>
    let r := avdtp_write (between i data) (sends i)
    r :: flushes between sends n (i + 1) r.data

/-- The byte count that attempt `k` of a flush passes to `send` when every
attempt before it has missed: the bytes-used `c` at entry, less what each
earlier `send` returned (`a2dp->count -= written`). -/
def avdtp_requested (send : Nat → Int → Int) (c : Int) : Nat → Int
  | 0 => c
  | k + 1 => avdtp_requested send c k - send k (avdtp_requested send c k)

/-! ## The raw (HSP) transfer functions -/

/-- The frame count chosen at the start of every transfer function:
`if ((data->count + size * frame_size) <= capacity) frames = size;
else frames = (capacity - data->count) / frame_size;`.  C does the comparison
in `unsigned long` (the type of `size`), which is this comparison of integers
for a fill count that is not negative; the division is done in `int`. -/
def frames_that_fit (count : Int) (size : Nat) (frame_size : Int) (capacity : Int) : Int :=
  if count + (size : Int) * frame_size ≤ capacity then (size : Int)
  else Int.tdiv (capacity - count) frame_size

/-- The number of frames that the interface description gives for a write-path
transfer call: `min(size, floor((capacity - fill count) / frame size))`. -/
def claimed_frames (count : Int) (size : Nat) (frame_size capacity : Int) : Int :=
  min (size : Int) ((capacity - count) / frame_size)

/-- What `bluetooth_hsp_write` leaves behind: its return value, the session
data and, when `send` was called, the bytes it was given. -/
structure hsp_write_result where
  ret : Int
  data : bluetooth_data
  sent : Option (List Nat)
deriving DecidableEq, Repr

/-- The function `bluetooth_hsp_write`.  `step` is `areas->step`, `buff` the
caller's bytes at `areas->addr + (areas->first + areas->step * offset) / 8`,
`rsend` the result of the one `send` (if it is reached) and `errno` the error
number it leaves.  The position counter is reduced modulo `io->buffer_size`,
which the host keeps positive. -/
def bluetooth_hsp_write (io : snd_pcm_ioplug_t) (data : bluetooth_data) (step : Nat)
    (buff : List Nat) (size : Nat) (rsend errno : Int) : hsp_write_result :=
  let cfg := data.cfg
  let frame_size : Int := ((step / 8 : Nat) : Int)
  let frames_to_read := frames_that_fit data.count size frame_size cfg.pkt_len
  let buffer := memcpy data.buffer data.count.toNat buff (frame_size * frames_to_read).toNat
  let count := data.count + frames_to_read * frame_size
  if count ≠ cfg.pkt_len then
    { ret := frames_to_read, data := { data with buffer := buffer, count := count }, sent := none }
  else if rsend > 0 then
    { ret := frames_to_read
      data := { data with
        buffer := buffer
        count := 0
        hw_ptr := (data.hw_ptr + Int.tdiv cfg.pkt_len frame_size) % (io.buffer_size : Int) }
      sent := some (buffer.take cfg.pkt_len) }
  else if rsend < 0 then
    { ret := if errno = EPIPE then - EIO else -errno
      data := { data with buffer := buffer, count := count }
      sent := some (buffer.take cfg.pkt_len) }
  else
    { ret := - EIO
      data := { data with buffer := buffer, count := count }
      sent := some (buffer.take cfg.pkt_len) }

/-- What `bluetooth_hsp_read` leaves behind: its return value, the session
data, whether `recv` was called and the bytes copied to the caller. -/
structure hsp_read_result where
  ret : Int
  data : bluetooth_data
  received : Bool
  copied : List Nat
deriving DecidableEq, Repr

/-- The part of `bluetooth_hsp_read` from the label `proceed:` on, with the
value `frame_size` has when the label is reached. -/
def hsp_read_proceed (data : bluetooth_data) (size : Nat) (frame_size : Int)
    (received : Bool) : hsp_read_result :=
  let cfg := data.cfg
  let frames_to_write := frames_that_fit data.count size frame_size cfg.pkt_len
  { ret := frames_to_write
    data := { data with
      count := Int.tmod (data.count + frame_size * frames_to_write) cfg.pkt_len }
    received := received
    copied := (data.buffer.drop data.count.toNat).take (frame_size * frames_to_write).toNat }

/-- The function `bluetooth_hsp_read`.  `frame_size` is declared with the
initial value 0 and is assigned `areas->step / 8` only after the test
`if (data->count > 0) goto proceed;`.  `nrecv` is the result of the one
`recv` (if it is reached), `errno` its error number and `pkt` the bytes it
delivers into `data->buffer`. -/
def bluetooth_hsp_read (io : snd_pcm_ioplug_t) (data : bluetooth_data) (step : Nat)
    (size : Nat) (nrecv errno : Int) (pkt : List Nat) : hsp_read_result :=
  let cfg := data.cfg
  if data.count > 0 then hsp_read_proceed data size 0 false
  else
    let frame_size : Int := ((step / 8 : Nat) : Int)
    if nrecv < 0 then
      { ret := if errno = EPIPE then - EIO else -errno, data := data, received := true,
        copied := [] }
    else
      let data1 := { data with buffer := memcpy data.buffer 0 pkt nrecv.toNat }
      if nrecv ≠ cfg.pkt_len then
        { ret := - EIO, data := data1, received := true, copied := [] }
      else
        hsp_read_proceed
          { data1 with
            hw_ptr := (data.hw_ptr + ((cfg.pkt_len / cfg.sample_size : Nat) : Int)) %
              (io.buffer_size : Int) }
          size frame_size true

/-! ## The SBC (A2DP) write transfer function -/

/-- What `sbc_encode` (declared in `sbc.h`) hands back: its return value and
the encoded frame it leaves in `sbc.data` and `sbc.len`. -/
structure sbc_encode_result where
  encoded : Int
  data : List Nat
  len : Int
deriving DecidableEq, Repr

/-- What `bluetooth_a2dp_write` leaves behind: its return value, the session
data, the function-static `codesize`, the bytes given to `sbc_encode` when it
was called, and the flush when `avdtp_write` was called. -/
structure a2dp_write_result where
  ret : Int
  data : bluetooth_data
  codesize : Int
  encoder_input : Option (List Nat)
  flush : Option avdtp_result
deriving DecidableEq, Repr

/-- The value of the function-static `codesize` after the block
`if (codesize == 0) { codesize = subbands * blocks * channels * 2; ... }`. -/
def a2dp_codesize (data : bluetooth_data) (codesize : Int) : Int :=
  if codesize = 0 then
    data.a2dp.sbc.subbands * data.a2dp.sbc.blocks * data.a2dp.sbc.channels * 2
  else codesize

/-- The session data after the same block: when `codesize` was 0 the header
space is reserved in the outgoing packet. -/
def a2dp_reserve_header (data : bluetooth_data) (codesize : Int) : bluetooth_data :=
  if codesize = 0 then
    { data with a2dp := { data.a2dp with
        count := ((sizeof_rtp_header + sizeof_rtp_payload : Nat) : Int) } }
  else data

/-- The append of `bluetooth_a2dp_write`, from `memcpy(a2dp->buffer + a2dp->count, ...)`
to the update of `hw_ptr`: copy the encoded frame behind the bytes in use
and advance the counters. -/
def a2dp_store_frame (io : snd_pcm_ioplug_t) (data : bluetooth_data)
    (frame_size encoded : Int) : bluetooth_data :=
  let a2dp := data.a2dp
  { data with
    a2dp := { a2dp with
      buffer := memcpy a2dp.buffer a2dp.count.toNat a2dp.sbc.data a2dp.sbc.len.toNat
      count := a2dp.count + a2dp.sbc.len
      frame_count := a2dp.frame_count + 1
      samples := a2dp.samples + Int.tdiv encoded frame_size
      nsamples := a2dp.nsamples + Int.tdiv encoded frame_size }
    hw_ptr := (data.hw_ptr + Int.tdiv encoded frame_size) % (io.buffer_size : Int) }

/-- The tail of `bluetooth_a2dp_write` after a successful `sbc_encode`:
`if (a2dp->count + a2dp->sbc.len >= data->cfg.pkt_len) avdtp_write(data, io->nonblock);`
and then the append.  The value `avdtp_write` returns is not looked at. -/
def a2dp_append (io : snd_pcm_ioplug_t) (data : bluetooth_data) (frame_size encoded : Int)
    (send : Nat → Int → Int) : bluetooth_data × Option avdtp_result :=
  if data.a2dp.count + data.a2dp.sbc.len ≥ (data.cfg.pkt_len : Int) then
    (a2dp_store_frame io (avdtp_write data send).data frame_size encoded,
      some (avdtp_write data send))
  else (a2dp_store_frame io data frame_size encoded, none)

/-- The function `bluetooth_a2dp_write`.  `codesize` is the value of the
function-static variable at entry, `enc` what `sbc_encode` does if it is
called and `send` what the sends of a flush return. -/
def bluetooth_a2dp_write (io : snd_pcm_ioplug_t) (data0 : bluetooth_data) (codesize0 : Int)
    (step : Nat) (buff : List Nat) (size : Nat) (enc : sbc_encode_result)
    (send : Nat → Int → Int) : a2dp_write_result :=
  let codesize := a2dp_codesize data0 codesize0
  let data := a2dp_reserve_header data0 codesize0
  let frame_size : Int := ((step / 8 : Nat) : Int)
  let frames_to_read := frames_that_fit data.count size frame_size codesize
  let buffer := store data.buffer data.count.toNat
    (memcpy_changeendian buff (frame_size * frames_to_read))
  let count := data.count + frames_to_read * frame_size
  if count ≠ codesize then
    { ret := frames_to_read, data := { data with buffer := buffer, count := count },
      codesize := codesize, encoder_input := none, flush := none }
  else if enc.encoded ≤ 0 then
    { ret := 0, data := { data with buffer := buffer, count := count },
      codesize := codesize, encoder_input := some (buffer.take codesize.toNat), flush := none }
  else
    let data1 : bluetooth_data :=
      { data with
        buffer := buffer
        count := count - enc.encoded
        a2dp := { data.a2dp with sbc := { data.a2dp.sbc with data := enc.data, len := enc.len } } }
    let r := a2dp_append io data1 frame_size enc.encoded send
    { ret := frames_to_read, data := r.1, codesize := codesize,
      encoder_input := some (buffer.take codesize.toNat), flush := r.2 }

/-- A run of `n` calls of `bluetooth_a2dp_write`, each offered the same frames and
meeting the same encoder and send outcomes; the state is the session data
together with the function-static `codesize`. -/
def a2dp_write_run (io : snd_pcm_ioplug_t) (step : Nat) (buff : List Nat) (size : Nat)
    (enc : sbc_encode_result) (send : Nat → Int → Int) :
    Nat → bluetooth_data × Int → bluetooth_data × Int
  | 0, s => s
  | n + 1, s =>
    a2dp_write_run io step buff size enc send n
      ((bluetooth_a2dp_write io s.1 s.2 step buff size enc send).data,
       (bluetooth_a2dp_write io s.1 s.2 step buff size enc send).codesize)

/-! ## The configuration handshake -/

/-- The constants and sizes of `ipc.h` that the handshake uses.  The header is
not part of the sources at hand, so its values are taken as parameters. -/
structure ipc_h where
  PKT_TYPE_CFG_RSP : Int
  PKT_ERROR_NONE : Int
  CFG_CODEC_SBC : Nat
  CFG_CHANNEL_MODE_MONO : Nat
  CFG_CHANNEL_MODE_JOINT_STEREO : Nat
  sizeof_ipc_packet : Nat
deriving DecidableEq, Repr

/-- The type `struct ipc_codec_sbc` of `ipc.h`, as `bluetooth_a2dp_init` reads it. -/
structure ipc_codec_sbc where
  allocation : Nat
  subbands : Nat
  blocks : Nat
  bitpool : Nat
deriving DecidableEq, Repr

/-- One entry of the ancillary data of a message: its level, its type and the
`int` found at `CMSG_DATA`. -/
structure cmsghdr where
  cmsg_level : Int
  cmsg_type : Int
  cmsg_data : Int
deriving DecidableEq, Repr

/-- What `recvmsg` delivers in `bluetooth_recvmsg_fd`: its result, the error
number, the type field of the packet and the ancillary entries in the order
`CMSG_FIRSTHDR`, `CMSG_NXTHDR` walk them. -/
structure recvmsg_outcome where
  ret : Int
  errno : Int
  pkt_type : Int
  cmsgs : List cmsghdr
deriving DecidableEq, Repr

/-- The `for` loop of `bluetooth_recvmsg_fd` over the ancillary entries.  Its
body is `if (level == SOL_SOCKET && type == SCM_RIGHTS) data->stream_fd = ...;`
followed by `DBG(...)` (empty without `ENABLE_DEBUG`) and `return 0;`: the
`if` has no braces and governs the assignment only, so the body returns in
its first turn.  `none` means the loop ended without returning. -/
def recvmsg_fd_scan (data : bluetooth_data) : List cmsghdr → Option bluetooth_data
  | [] => none
  | cmsg :: _ =>
    some (if cmsg.cmsg_level = SOL_SOCKET ∧ cmsg.cmsg_type = SCM_RIGHTS then
      { data with stream_fd := cmsg.cmsg_data } else data)

/-- The function `bluetooth_recvmsg_fd`. -/
def bluetooth_recvmsg_fd (K : ipc_h) (data : bluetooth_data) (msg : recvmsg_outcome) :
    Int × bluetooth_data :=
  if msg.ret < 0 then (-msg.errno, data)
  else if msg.pkt_type = K.PKT_TYPE_CFG_RSP then
    match recvmsg_fd_scan data msg.cmsgs with
    | some data1 => (0, data1)
    | none => (- EINVAL, data)
  else (- EINVAL, data)

/-- The ancillary data that `recvmsg` can hand to `bluetooth_recvmsg_fd`.  The
control socket is made by `socket(PF_LOCAL, SOCK_STREAM, 0)` in
`bluetooth_init` and no option is ever set on it, so the kernel attaches
nothing but passed descriptors (`SOL_SOCKET`, `SCM_RIGHTS`); the control
buffer is `CMSG_LEN(sizeof(int))` bytes, the room of one entry with one
descriptor.  The list is therefore empty or one `SCM_RIGHTS` entry. -/
def deliverable : List cmsghdr → Bool
  | [] => true
  | [cmsg] => decide (cmsg.cmsg_level = SOL_SOCKET ∧ cmsg.cmsg_type = SCM_RIGHTS)
  | _ => false

/-- The function `bluetooth_a2dp_init`; `sbc0` is the codec descriptor that
`sbc_init` leaves. -/
def bluetooth_a2dp_init (K : ipc_h) (data : bluetooth_data) (sbc : ipc_codec_sbc)
    (sbc0 : sbc_t) : Int × bluetooth_data :=
  let cfg := data.cfg
  if cfg.codec ≠ K.CFG_CODEC_SBC then (-1, data)
  else
    (0, { data with a2dp := { data.a2dp with sbc :=
      { sbc0 with
        rate := cfg.rate
        channels := cfg.channels
        joint := if cfg.channel_mode = K.CFG_CHANNEL_MODE_MONO ∨
          cfg.channel_mode = K.CFG_CHANNEL_MODE_JOINT_STEREO then 1 else sbc0.joint
        allocation := sbc.allocation
        subbands := sbc.subbands
        blocks := sbc.blocks
        bitpool := sbc.bitpool } } })

/-- What the control socket does during `bluetooth_cfg`: the result and error
number of the `send` of the request, of the `recv` of header and base
configuration and of the `recv` of the SBC extension; the header fields and
the configuration found in `buf` after the first `recv`; the SBC record found
after the second; the outcome of the `recvmsg`; and what `sbc_init` leaves. -/
structure cfg_outcome where
  send_ret : Int
  send_errno : Int
  recv_ret : Int
  recv_errno : Int
  pkt_type : Int
  pkt_error : Int
  pkt_length : Nat
  cfg : ipc_data_cfg
  sbc_ret : Int
  sbc_errno : Int
  sbc : ipc_codec_sbc
  sbc0 : sbc_t
  msg : recvmsg_outcome
deriving DecidableEq, Repr

/-- The value of `total` when `bluetooth_cfg` reaches the label `done:`: the
bytes of the first `recv`, plus those of the second when the codec is SBC. -/
def cfg_total (K : ipc_h) (env : cfg_outcome) : Int :=
  if env.cfg.codec = K.CFG_CODEC_SBC then env.recv_ret + env.sbc_ret else env.recv_ret

/-- The part of `bluetooth_cfg` from the label `done:` on, with `total` the
number of bytes received so far.  The loop that drains the stream socket
stores what it reads in the first `pkt_len` bytes of `data->buffer`, which the
final `memset` clears, so it leaves no trace in the session data. -/
def bluetooth_cfg_done (K : ipc_h) (data : bluetooth_data) (env : cfg_outcome) (total : Int) :
    Int × bluetooth_data :=
  if (env.pkt_length : Int) ≠ total - (K.sizeof_ipc_packet : Int) then (- EINVAL, data)
  else
    let data1 := { data with cfg := env.cfg }
    let r :=
      if data1.cfg.codec = K.CFG_CODEC_SBC then bluetooth_a2dp_init K data1 env.sbc env.sbc0
      else (0, data1)
    if r.1 < 0 then r
    else if r.2.stream_fd = -1 then (- EINVAL, r.2)
    else
      let f := bluetooth_recvmsg_fd K r.2 env.msg
      if f.1 < 0 then f
      else (0, { f.2 with buffer := memset f.2.buffer 0 f.2.cfg.pkt_len })

/-- The function `bluetooth_cfg`. -/
def bluetooth_cfg (K : ipc_h) (data : bluetooth_data) (env : cfg_outcome) :
    Int × bluetooth_data :=
  if env.send_ret < 0 then (-env.send_errno, data)
  else if env.send_ret = 0 then (- EIO, data)
  else if env.recv_ret < 0 then (-env.recv_errno, data)
  else if env.recv_ret = 0 then (- EIO, data)
  else
    let total := env.recv_ret
    if env.pkt_type ≠ K.PKT_TYPE_CFG_RSP then (- EINVAL, data)
    else if env.pkt_error ≠ K.PKT_ERROR_NONE then (env.pkt_error, data)
    else if env.cfg.codec ≠ K.CFG_CODEC_SBC then bluetooth_cfg_done K data env total
    else if env.sbc_ret < 0 then (-env.sbc_errno, data)
    else if env.sbc_ret = 0 then (- EIO, data)
    else bluetooth_cfg_done K data env (total + env.sbc_ret)

/-- The session data after `memset(data, 0, sizeof(struct bluetooth_data))`. -/
def zeroed_data : bluetooth_data :=
  { hw_ptr := 0
    cfg := { fd_opt := 0, channels := 0, channel_mode := 0, pkt_len := 0, sample_size := 0,
             rate := 0, codec := 0 }
    stream_fd := 0
    sock := 0
    buffer := List.replicate BUFFER_SIZE 0
    count := 0
    a2dp :=
      { sbc := { rate := 0, channels := 0, joint := 0, allocation := 0, blocks := 0,
                 subbands := 0, bitpool := 0, data := [], len := 0 }
        samples := 0
        buffer := List.replicate BUFFER_SIZE 0
        count := 0
        nsamples := 0
        seq_num := 0
        frame_count := 0 } }

/-- What the system does during `bluetooth_init`: the results of `socket` and
`connect` with their error numbers, and the handshake. -/
structure init_outcome where
  socket_ret : Int
  socket_errno : Int
  connect_ret : Int
  connect_errno : Int
  cfg : cfg_outcome
deriving DecidableEq, Repr

/-- The function `bluetooth_init`, called with a non-null `data`. -/
def bluetooth_init (K : ipc_h) (env : init_outcome) : Int × bluetooth_data :=
  let data := { zeroed_data with sock := -1 }
  if env.socket_ret < 0 then (-env.socket_errno, data)
  else if env.connect_ret < 0 then (-env.connect_errno, data)
  else bluetooth_cfg K { data with sock := env.socket_ret } env.cfg

/-- The four callback tables of the plugin. -/
inductive callback_table where
  | bluetooth_hsp_playback
  | bluetooth_hsp_capture
  | bluetooth_a2dp_playback
  | bluetooth_a2dp_capture
deriving DecidableEq, Repr

/-- What the constructor obtains from outside: whether `malloc` succeeds, the
outcome of the initialisation, and the results of `snd_pcm_ioplug_create`
and `bluetooth_hw_constraint`. -/
structure plugin_outcome where
  malloc_ok : Bool
  init : init_outcome
  create_err : Int
  constraint_err : Int
deriving DecidableEq, Repr

/-- What the constructor leaves behind: its return value, whether it went
through the label `error:`, whether `snd_pcm_ioplug_create` was called, the
descriptor stored in `data->io.poll_fd`, the callback table it chose, and
whether `*pcmp` was set. -/
structure plugin_result where
  ret : Int
  error_path : Bool
  create_called : Bool
  poll_fd : Option Int
  callback : Option callback_table
  pcm_set : Bool
deriving DecidableEq, Repr

/-- The constructor `SND_PCM_PLUGIN_DEFINE_FUNC(bluetooth)`; `playback` says
whether `stream == SND_PCM_STREAM_PLAYBACK`. -/
def snd_pcm_plugin_bluetooth (K : ipc_h) (playback : Bool) (env : plugin_outcome) :
    plugin_result :=
  if !env.malloc_ok then
    { ret := - ENOMEM, error_path := true, create_called := false, poll_fd := none,
      callback := none, pcm_set := false }
  else
    let r := bluetooth_init K env.init
    if r.1 < 0 then
      { ret := r.1, error_path := true, create_called := false, poll_fd := none,
        callback := none, pcm_set := false }
    else
      let callback :=
        if r.2.cfg.codec = K.CFG_CODEC_SBC then
          (if playback then callback_table.bluetooth_a2dp_playback
           else callback_table.bluetooth_a2dp_capture)
        else
          (if playback then callback_table.bluetooth_hsp_playback
           else callback_table.bluetooth_hsp_capture)
      if env.create_err < 0 then
        { ret := env.create_err, error_path := true, create_called := true,
          poll_fd := some r.2.stream_fd, callback := some callback, pcm_set := false }
      else if env.constraint_err < 0 then
        { ret := env.constraint_err, error_path := true, create_called := true,
          poll_fd := some r.2.stream_fd, callback := some callback, pcm_set := false }
      else
        { ret := 0, error_path := false, create_called := true,
          poll_fd := some r.2.stream_fd, callback := some callback, pcm_set := true }

/-! ## Sample states -/

/-- A codec descriptor for 4 subbands, 4 blocks and 1 channel: 32 bytes per encode. -/
def sample_sbc : sbc_t :=
  { rate := 44100, channels := 1, joint := 1, allocation := 0, blocks := 4,
    subbands := 4, bitpool := 32, data := [], len := 0 }

/-- A media packet holding the header and one 7-byte frame, sequence number 65535. -/
def sample_a2dp : bluetooth_a2dp :=
  { sbc := sample_sbc, samples := 32, buffer := List.replicate 13 0 ++ [1, 2, 3, 4, 5, 6, 7],
    count := 20, nsamples := 32, seq_num := 65535, frame_count := 1 }

/-- A negotiated SBC configuration with a 40-byte packet length. -/
def sample_cfg : ipc_data_cfg :=
  { fd_opt := 1, channels := 1, channel_mode := 1, pkt_len := 40, sample_size := 2,
    rate := 44100, codec := 1 }

/-- A session with an empty accumulation buffer. -/
def sample_data : bluetooth_data :=
  { hw_ptr := 0, cfg := sample_cfg, stream_fd := 7, sock := 6, buffer := List.replicate 48 0,
    count := 0, a2dp := sample_a2dp }

/-- The sample session with a transfer buffer of the declared size. -/
def sample_session : bluetooth_data :=
  { sample_data with buffer := List.replicate BUFFER_SIZE 0 }

/-- The host side of the sample session: blocking mode, a ring buffer of 64 frames. -/
def sample_io : snd_pcm_ioplug_t :=
  { nonblock := 0, buffer_size := 64, period_size := 16 }

/-- The values of BlueZ for the constants of `ipc.h`, with a 5-byte packet header. -/
def sample_ipc : ipc_h :=
  { PKT_TYPE_CFG_RSP := 1, PKT_ERROR_NONE := 0, CFG_CODEC_SBC := 1, CFG_CHANNEL_MODE_MONO := 1,
    CFG_CHANNEL_MODE_JOINT_STEREO := 8, sizeof_ipc_packet := 5 }

/-- The caller's PCM area: 64 bytes `0, 1, ..., 63`. -/
def sample_pcm : List Nat := List.range 64

/-- An encode of the whole 32-byte window into a 7-byte frame. -/
def short_frame : sbc_encode_result := { encoded := 32, data := [1, 2, 3, 4, 5, 6, 7], len := 7 }

/-- An encode of the whole 32-byte window into a 30-byte frame. -/
def long_frame : sbc_encode_result := { encoded := 32, data := List.replicate 30 9, len := 30 }

/-- An encode that fails. -/
def failed_encode : sbc_encode_result := { encoded := -1, data := [], len := 0 }

/-- A response-typed message whose ancillary data is one `SCM_RIGHTS` entry with descriptor 9. -/
def sample_msg : recvmsg_outcome :=
  { ret := 5, errno := 0, pkt_type := 1,
    cmsgs := [{ cmsg_level := SOL_SOCKET, cmsg_type := SCM_RIGHTS, cmsg_data := 9 }] }

/-- A handshake that succeeds: 5 + 9 bytes of header and configuration, 4 bytes of
SBC extension, a declared length of 13. -/
def sample_handshake : cfg_outcome :=
  { send_ret := 5, send_errno := 0, recv_ret := 14, recv_errno := 0, pkt_type := 1,
    pkt_error := 0, pkt_length := 13, cfg := sample_cfg, sbc_ret := 4, sbc_errno := 0,
    sbc := { allocation := 0, subbands := 4, blocks := 4, bitpool := 32 },
    sbc0 := sample_sbc, msg := sample_msg }

/-- The same handshake with a declared length of 12 where 13 bytes followed the header. -/
def sample_short_handshake : cfg_outcome :=
  { sample_handshake with pkt_length := 12 }

/-- A response-typed message whose only ancillary entry is not of type `SCM_RIGHTS`. -/
def sample_other_msg : recvmsg_outcome :=
  { ret := 5, errno := 0, pkt_type := 1,
    cmsgs := [{ cmsg_level := SOL_SOCKET, cmsg_type := 2, cmsg_data := 9 }] }

/-- A constructor run in which `malloc`, `socket`, `connect` and the ALSA calls succeed
and the handshake goes as `h`. -/
def sample_plugin (h : cfg_outcome) : plugin_outcome :=
  { malloc_ok := true,
    init := { socket_ret := 3, socket_errno := 0, connect_ret := 0, connect_errno := 0,
              cfg := h },
    create_err := 0, constraint_err := 0 }

/-- An initialisation in which `socket` and `connect` succeed and the handshake goes as `h`. -/
def sample_init (h : cfg_outcome) : init_outcome :=
  { socket_ret := 3, socket_errno := 0, connect_ret := 0, connect_errno := 0, cfg := h }

/-- The sample handshake with 8 subbands and 8 blocks negotiated. -/
def wide_handshake : cfg_outcome :=
  { sample_handshake with sbc := { allocation := 0, subbands := 8, blocks := 8, bitpool := 32 } }

/-- The first transfer call of the first session of a process: the function-static
`codesize` is 0, 16 frames of 2 bytes are offered and encoded into a 7-byte frame. -/
def first_session : a2dp_write_result :=
  bluetooth_a2dp_write sample_io (bluetooth_init sample_ipc (sample_init sample_handshake)).2 0
    16 sample_pcm 16 short_frame (fun _ n => n)

/-- The first transfer call of a second session of the same process, with the same
negotiated parameters: fresh session data, `codesize` as the first session left it. -/
def second_session : a2dp_write_result :=
  bluetooth_a2dp_write sample_io (bluetooth_init sample_ipc (sample_init sample_handshake)).2
    first_session.codesize 16 sample_pcm 16 short_frame (fun _ n => n)

/-- The first transfer call of a second session that negotiated 8 subbands and 8 blocks. -/
def second_session_wide : a2dp_write_result :=
  bluetooth_a2dp_write sample_io (bluetooth_init sample_ipc (sample_init wide_handshake)).2
    first_session.codesize 16 sample_pcm 16 failed_encode (fun _ n => n)

/-- The sample handshake with a negotiated packet length of 128. -/
def roomy_handshake : cfg_outcome :=
  { sample_handshake with cfg := { sample_cfg with pkt_len := 128 } }

/-- A fresh session with packet length 128 after 16 transfer calls, each of which
fills the 32-byte window and has it encoded into a 7-byte frame. -/
def sixteen_frames : bluetooth_data × Int :=
  a2dp_write_run sample_io 16 sample_pcm 16 short_frame (fun _ n => n) 16
    ((bluetooth_init sample_ipc (sample_init roomy_handshake)).2, 0)

/-! ## The flush: packet reset and sequence numbers -/

theorem wire_seq_avdtp_write (data : bluetooth_data) (send : Nat → Int → Int) :
    wire_seq (avdtp_write data send).packet = data.a2dp.seq_num % 65536 := by
  simp [avdtp_write, wire_seq, store, rtp_header_bytes]
  omega

theorem seq_num_avdtp_write (data : bluetooth_data) (send : Nat → Int → Int) :
    (avdtp_write data send).data.a2dp.seq_num = (data.a2dp.seq_num + 1) % 65536 := rfl

theorem flushes_wire_seq (between : Nat → bluetooth_data → bluetooth_data)
    (sends : Nat → Nat → Int → Int)
    (hb : ∀ i d, (between i d).a2dp.seq_num = d.a2dp.seq_num) (n : Nat) :
    ∀ (i : Nat) (data : bluetooth_data),
      (flushes between sends n i data).map (fun r => wire_seq r.packet) =
        (List.range n).map (fun j => (data.a2dp.seq_num + j) % 65536) := by
  induction n with
  | zero => intro i data; rfl
  | succ n ih =>
    intro i data
    rw [List.range_succ_eq_map]
    simp only [flushes, List.map_cons, List.map_map]
    rw [ih, wire_seq_avdtp_write, seq_num_avdtp_write, hb]
    simp only [Nat.add_zero, List.cons.injEq, true_and]
    apply List.map_congr_left
    intro j _
    simp only [Function.comp, Nat.succ_eq_add_one]
    omega

/-- C1: whatever the packet state and whatever the ten sends return,
`avdtp_write` leaves the packet with 13 bytes used (12-byte header and 1-byte
payload descriptor), frame counter 0, per-packet sample counter 0 and the
sequence number stepped by one modulo 65536; and `n` consecutive flushes,
with any appends in between that leave the sequence number alone, put the
sequence numbers `s, s+1, ..., s+n-1` (mod 65536) on the wire. -/
theorem avdtp_write_resets_packet (data : bluetooth_data) (send : Nat → Int → Int)
    (between : Nat → bluetooth_data → bluetooth_data) (sends : Nat → Nat → Int → Int) (n : Nat)
    (hb : ∀ i d, (between i d).a2dp.seq_num = d.a2dp.seq_num) :
    (avdtp_write data send).data.a2dp.count = 13 ∧
    (avdtp_write data send).data.a2dp.frame_count = 0 ∧
    (avdtp_write data send).data.a2dp.samples = 0 ∧
    (avdtp_write data send).data.a2dp.seq_num = (data.a2dp.seq_num + 1) % 65536 ∧
    (flushes between sends n 0 data).map (fun r => wire_seq r.packet) =
      (List.range n).map (fun j => (data.a2dp.seq_num + j) % 65536) :=
  ⟨rfl, rfl, rfl, rfl, flushes_wire_seq between sends hb n 0 data⟩

theorem avdtp_write_resets_packet_witness :
    (∀ (i : Nat) (d : bluetooth_data),
      ((fun (_ : Nat) (x : bluetooth_data) => x) i d).a2dp.seq_num = d.a2dp.seq_num) ∧
    (avdtp_write sample_data (fun _ _ => -1)).data.a2dp.count = 13 ∧
    (avdtp_write sample_data (fun _ _ => -1)).data.a2dp.frame_count = 0 ∧
    (avdtp_write sample_data (fun _ _ => -1)).data.a2dp.samples = 0 ∧
    (avdtp_write sample_data (fun _ _ => -1)).data.a2dp.seq_num =
      (sample_data.a2dp.seq_num + 1) % 65536 ∧
    (flushes (fun _ x => x) (fun _ _ _ => 0) 3 0 sample_data).map (fun r => wire_seq r.packet) =
      (List.range 3).map (fun j => (sample_data.a2dp.seq_num + j) % 65536) :=
  ⟨fun _ _ => rfl,
    avdtp_write_resets_packet sample_data (fun _ _ => -1) (fun _ x => x) (fun _ _ _ => 0) 3
      (fun _ _ => rfl)⟩

/-! ## Auxiliary facts -/

theorem reserve_header_count (data : bluetooth_data) (c : Int) :
    (a2dp_reserve_header data c).count = data.count := by
  unfold a2dp_reserve_header; split <;> rfl

theorem reserve_header_buffer (data : bluetooth_data) (c : Int) :
    (a2dp_reserve_header data c).buffer = data.buffer := by
  unfold a2dp_reserve_header; split <;> rfl

theorem reserve_header_sbc (data : bluetooth_data) (c : Int) :
    (a2dp_reserve_header data c).a2dp.sbc = data.a2dp.sbc := by
  unfold a2dp_reserve_header; split <;> rfl

theorem reserve_header_hw_ptr (data : bluetooth_data) (c : Int) :
    (a2dp_reserve_header data c).hw_ptr = data.hw_ptr := by
  unfold a2dp_reserve_header; split <;> rfl

theorem a2dp_codesize_idem (data : bluetooth_data) (c : Int) (d : bluetooth_data)
    (hs : d.a2dp.sbc = data.a2dp.sbc) :
    a2dp_codesize d (a2dp_codesize data c) = a2dp_codesize data c := by
  unfold a2dp_codesize
  split_ifs <;> simp_all

theorem store_nil (dst : List Nat) (off : Nat) : store dst off [] = dst := by
  simp [store]

theorem swab16_zero (src : List Nat) : swab16 0 src = [] := by
  cases src <;> rfl

/-- The frames chosen are non-negative and fit in what is left of the buffer. -/
theorem frames_that_fit_bounds (count : Int) (size : Nat) (fs cap : Int)
    (hc : count ≤ cap) (hfs : 0 < fs) :
    0 ≤ frames_that_fit count size fs cap ∧
      count + frames_that_fit count size fs cap * fs ≤ cap := by
  unfold frames_that_fit
  split_ifs with h
  · exact ⟨Int.ofNat_nonneg size, h⟩
  · rw [Int.tdiv_eq_ediv (by omega) (by omega)]
    have h1 : (cap - count) / fs * fs ≤ cap - count := Int.ediv_mul_le _ (by omega)
    have h2 : 0 ≤ (cap - count) / fs := Int.ediv_nonneg (by omega) (by omega)
    exact ⟨h2, by omega⟩

/-- On a full buffer no byte is copied. -/
theorem frames_that_fit_full (cap : Int) (size : Nat) (fs : Int) (hfs : 0 ≤ fs) :
    fs * frames_that_fit cap size fs cap = 0 := by
  unfold frames_that_fit
  split_ifs with h
  · have h1 : 0 ≤ (size : Int) * fs := mul_nonneg (Int.ofNat_nonneg size) hfs
    have h2 : (size : Int) * fs = 0 := by omega
    rw [mul_comm]; exact h2
  · simp

/-- On a full buffer no frame is taken, when frames have a size. -/
theorem frames_that_fit_full_pos (cap : Int) (size : Nat) (fs : Int) (hfs : 0 < fs) :
    frames_that_fit cap size fs cap = 0 := by
  have h := frames_that_fit_full cap size fs hfs.le
  rcases mul_eq_zero.mp h with h1 | h1
  · omega
  · exact h1

/-! ## The media packet and the negotiated MTU -/

/-- C3, counterexample: entered with an empty buffer (fill count 0, inside
`[0, capacity)`) and 2-byte frames, `bluetooth_hsp_write` returns with the fill
count 40 equal to the capacity when the send of the full buffer fails, and
`bluetooth_a2dp_write` returns with the fill count 32 equal to `codesize` when
the encoder fails. -/
theorem write_fill_count_reaches_capacity :
    0 ≤ sample_data.count ∧ sample_data.count < (sample_data.cfg.pkt_len : Int) ∧
    (bluetooth_hsp_write sample_io sample_data 16 sample_pcm 20 (-1) 11).data.count =
      (sample_data.cfg.pkt_len : Int) ∧
    sample_data.count < a2dp_codesize sample_data 0 ∧
    (bluetooth_a2dp_write sample_io sample_data 0 16 sample_pcm 20 failed_encode
      (fun _ n => n)).codesize = 32 ∧
    (bluetooth_a2dp_write sample_io sample_data 0 16 sample_pcm 20 failed_encode
      (fun _ n => n)).data.count = 32 := by
  decide

/-- C3, amended: a write-path transfer call entered with a fill count in
`[0, capacity)`, a positive frame size and a capacity that lies inside the
transfer buffer (`capacity ≤ BUFFER_SIZE`; on the SBC path also an encoder
result not above the capacity) returns with a fill count in `[0, capacity]`,
so within the buffer.  The count is below the capacity when the buffer did
not become full; after a send that returned a positive count it is 0 and
after an encode that returned a positive count it is `codesize - encoded`; it
stays at the capacity when the send of the full buffer returned 0 or failed,
or the encoder returned a non-positive value.  The raw call (state `data`)
and the SBC call (state `data2`) are taken independently of each other. -/
theorem write_fill_count_bounds (io : snd_pcm_ioplug_t) (data : bluetooth_data) (step : Nat)
    (buff : List Nat) (size : Nat) (rsend errno : Int)
    (io2 : snd_pcm_ioplug_t) (data2 : bluetooth_data) (step2 : Nat) (buff2 : List Nat)
    (size2 : Nat) (codesize : Int) (enc : sbc_encode_result) (send : Nat → Int → Int)
    (h0 : 0 ≤ data.count) (hfs : 0 < step / 8)
    (hraw : data.count < (data.cfg.pkt_len : Int))
    (hcap : data.cfg.pkt_len ≤ BUFFER_SIZE)
    (h02 : 0 ≤ data2.count) (hfs2 : 0 < step2 / 8)
    (hsbc : data2.count < a2dp_codesize data2 codesize)
    (hcap2 : a2dp_codesize data2 codesize ≤ (BUFFER_SIZE : Int))
    (henc : enc.encoded ≤ a2dp_codesize data2 codesize) :
    (0 ≤ (bluetooth_hsp_write io data step buff size rsend errno).data.count ∧
     (bluetooth_hsp_write io data step buff size rsend errno).data.count ≤ (data.cfg.pkt_len : Int) ∧
     (bluetooth_hsp_write io data step buff size rsend errno).data.count ≤ (BUFFER_SIZE : Int) ∧
     ((bluetooth_hsp_write io data step buff size rsend errno).sent = none ∧
       (bluetooth_hsp_write io data step buff size rsend errno).data.count < (data.cfg.pkt_len : Int) ∨
      (bluetooth_hsp_write io data step buff size rsend errno).sent ≠ none ∧ 0 < rsend ∧
       (bluetooth_hsp_write io data step buff size rsend errno).data.count = 0 ∨
      (bluetooth_hsp_write io data step buff size rsend errno).sent ≠ none ∧ rsend ≤ 0 ∧
       (bluetooth_hsp_write io data step buff size rsend errno).data.count = (data.cfg.pkt_len : Int))) ∧
    (0 ≤ (bluetooth_a2dp_write io2 data2 codesize step2 buff2 size2 enc send).data.count ∧
     (bluetooth_a2dp_write io2 data2 codesize step2 buff2 size2 enc send).data.count ≤
       a2dp_codesize data2 codesize ∧
     (bluetooth_a2dp_write io2 data2 codesize step2 buff2 size2 enc send).data.count ≤
       (BUFFER_SIZE : Int) ∧
     ((bluetooth_a2dp_write io2 data2 codesize step2 buff2 size2 enc send).encoder_input = none ∧
       (bluetooth_a2dp_write io2 data2 codesize step2 buff2 size2 enc send).data.count <
         a2dp_codesize data2 codesize ∨
      (bluetooth_a2dp_write io2 data2 codesize step2 buff2 size2 enc send).encoder_input ≠ none ∧
       0 < enc.encoded ∧
       (bluetooth_a2dp_write io2 data2 codesize step2 buff2 size2 enc send).data.count =
         a2dp_codesize data2 codesize - enc.encoded ∨
      (bluetooth_a2dp_write io2 data2 codesize step2 buff2 size2 enc send).encoder_input ≠ none ∧
       enc.encoded ≤ 0 ∧
       (bluetooth_a2dp_write io2 data2 codesize step2 buff2 size2 enc send).data.count =
         a2dp_codesize data2 codesize)) := by
  have hfs' : (0 : Int) < ((step / 8 : Nat) : Int) := by exact_mod_cast hfs
  have hfs2' : (0 : Int) < ((step2 / 8 : Nat) : Int) := by exact_mod_cast hfs2
  have hcap' : (data.cfg.pkt_len : Int) ≤ (BUFFER_SIZE : Int) := by exact_mod_cast hcap
  generalize (BUFFER_SIZE : Int) = B at *
  constructor
  · have hb := frames_that_fit_bounds data.count size ((step / 8 : Nat) : Int)
      (data.cfg.pkt_len : Int) (by omega) hfs'
    have hm := mul_nonneg hb.1 hfs'.le
    unfold bluetooth_hsp_write
    simp only
    generalize ((step / 8 : Nat) : Int) = fs at *
    generalize frames_that_fit data.count size fs (data.cfg.pkt_len : Int) = F at *
    generalize F * fs = P at *
    split_ifs with h1 h2 h3 <;> simp <;> omega
  · have hb := frames_that_fit_bounds data2.count size2 ((step2 / 8 : Nat) : Int)
      (a2dp_codesize data2 codesize) (by omega) hfs2'
    have hm := mul_nonneg hb.1 hfs2'.le
    unfold bluetooth_a2dp_write
    simp only [reserve_header_count]
    generalize ((step2 / 8 : Nat) : Int) = fs at *
    generalize frames_that_fit data2.count size2 fs (a2dp_codesize data2 codesize) = F at *
    generalize F * fs = P at *
    split_ifs with h1 h2
    · simp; omega
    · simp; omega
    · unfold a2dp_append
      split_ifs <;> simp [a2dp_store_frame, avdtp_write] <;> omega

theorem write_fill_count_bounds_witness :
    (0 ≤ sample_data.count) ∧
    (0 < 16 / 8) ∧
    (sample_data.count < (sample_data.cfg.pkt_len : Int)) ∧
    (sample_data.cfg.pkt_len ≤ BUFFER_SIZE) ∧
    (0 ≤ sample_data.count) ∧
    (0 < 16 / 8) ∧
    (sample_data.count < a2dp_codesize sample_data (0 : Int)) ∧
    (a2dp_codesize sample_data (0 : Int) ≤ (BUFFER_SIZE : Int)) ∧
    (short_frame.encoded ≤ a2dp_codesize sample_data (0 : Int)) ∧
    ((0 ≤ (bluetooth_hsp_write sample_io sample_data 16 sample_pcm 20 (40 : Int) (0 : Int)).data.count ∧
     (bluetooth_hsp_write sample_io sample_data 16 sample_pcm 20 (40 : Int) (0 : Int)).data.count ≤ (sample_data.cfg.pkt_len : Int) ∧
     (bluetooth_hsp_write sample_io sample_data 16 sample_pcm 20 (40 : Int) (0 : Int)).data.count ≤ (BUFFER_SIZE : Int) ∧
     ((bluetooth_hsp_write sample_io sample_data 16 sample_pcm 20 (40 : Int) (0 : Int)).sent = none ∧
       (bluetooth_hsp_write sample_io sample_data 16 sample_pcm 20 (40 : Int) (0 : Int)).data.count < (sample_data.cfg.pkt_len : Int) ∨
      (bluetooth_hsp_write sample_io sample_data 16 sample_pcm 20 (40 : Int) (0 : Int)).sent ≠ none ∧ 0 < (40 : Int) ∧
       (bluetooth_hsp_write sample_io sample_data 16 sample_pcm 20 (40 : Int) (0 : Int)).data.count = 0 ∨
      (bluetooth_hsp_write sample_io sample_data 16 sample_pcm 20 (40 : Int) (0 : Int)).sent ≠ none ∧ (40 : Int) ≤ 0 ∧
       (bluetooth_hsp_write sample_io sample_data 16 sample_pcm 20 (40 : Int) (0 : Int)).data.count = (sample_data.cfg.pkt_len : Int))) ∧
    (0 ≤ (bluetooth_a2dp_write sample_io sample_data (0 : Int) 16 sample_pcm 20 short_frame (fun _ n => n)).data.count ∧
     (bluetooth_a2dp_write sample_io sample_data (0 : Int) 16 sample_pcm 20 short_frame (fun _ n => n)).data.count ≤
       a2dp_codesize sample_data (0 : Int) ∧
     (bluetooth_a2dp_write sample_io sample_data (0 : Int) 16 sample_pcm 20 short_frame (fun _ n => n)).data.count ≤
       (BUFFER_SIZE : Int) ∧
     ((bluetooth_a2dp_write sample_io sample_data (0 : Int) 16 sample_pcm 20 short_frame (fun _ n => n)).encoder_input = none ∧
       (bluetooth_a2dp_write sample_io sample_data (0 : Int) 16 sample_pcm 20 short_frame (fun _ n => n)).data.count <
         a2dp_codesize sample_data (0 : Int) ∨
      (bluetooth_a2dp_write sample_io sample_data (0 : Int) 16 sample_pcm 20 short_frame (fun _ n => n)).encoder_input ≠ none ∧
       0 < short_frame.encoded ∧
       (bluetooth_a2dp_write sample_io sample_data (0 : Int) 16 sample_pcm 20 short_frame (fun _ n => n)).data.count =
         a2dp_codesize sample_data (0 : Int) - short_frame.encoded ∨
      (bluetooth_a2dp_write sample_io sample_data (0 : Int) 16 sample_pcm 20 short_frame (fun _ n => n)).encoder_input ≠ none ∧
       short_frame.encoded ≤ 0 ∧
       (bluetooth_a2dp_write sample_io sample_data (0 : Int) 16 sample_pcm 20 short_frame (fun _ n => n)).data.count =
         a2dp_codesize sample_data (0 : Int)))) :=
  ⟨by decide, by decide, by decide, by decide, by decide, by decide, by decide, by decide, by decide,
    write_fill_count_bounds sample_io sample_data 16 sample_pcm 20 40 0
      sample_io sample_data 16 sample_pcm 20 0 short_frame (fun _ n => n)
      (by decide) (by decide) (by decide) (by decide) (by decide) (by decide) (by decide) (by decide) (by decide)⟩

/-! ## The raw write path: failed and short sends -/

/-- C5, the code at the failing input: with 2-byte frames and a 40-byte
packet, the call that receives the packet returns 8 frames and copies bytes
0..15, leaving the copy offset at 16.  The next call, asked for 8 frames, does
not receive, returns 8, copies no byte at all and leaves the offset at 16:
`frame_size` is still 0 when the call jumps to `proceed`. -/
theorem hsp_read_second_call_copies_nothing :
    (bluetooth_hsp_read sample_io sample_data 16 8 40 0 (List.range 40)).ret = 8 ∧
    (bluetooth_hsp_read sample_io sample_data 16 8 40 0 (List.range 40)).received = true ∧
    (bluetooth_hsp_read sample_io sample_data 16 8 40 0 (List.range 40)).copied = List.range 16 ∧
    (bluetooth_hsp_read sample_io sample_data 16 8 40 0 (List.range 40)).data.count = 16 ∧
    (bluetooth_hsp_read sample_io
      (bluetooth_hsp_read sample_io sample_data 16 8 40 0 (List.range 40)).data
      16 8 40 0 []).ret = 8 ∧
    (bluetooth_hsp_read sample_io
      (bluetooth_hsp_read sample_io sample_data 16 8 40 0 (List.range 40)).data
      16 8 40 0 []).received = false ∧
    (bluetooth_hsp_read sample_io
      (bluetooth_hsp_read sample_io sample_data 16 8 40 0 (List.range 40)).data
      16 8 40 0 []).copied = [] ∧
    (bluetooth_hsp_read sample_io
      (bluetooth_hsp_read sample_io sample_data 16 8 40 0 (List.range 40)).data
      16 8 40 0 []).data.count = 16 := by
  decide

/-! ## The encode path: a failing encoder -/

theorem a2dp_write_encode_failed (io : snd_pcm_ioplug_t) (data : bluetooth_data)
    (codesize : Int) (step : Nat) (buff : List Nat) (size : Nat) (enc : sbc_encode_result)
    (send : Nat → Int → Int)
    (hfull : (bluetooth_a2dp_write io data codesize step buff size enc send).encoder_input ≠ none)
    (hfail : enc.encoded ≤ 0) :
    (bluetooth_a2dp_write io data codesize step buff size enc send).ret = 0 ∧
    (bluetooth_a2dp_write io data codesize step buff size enc send).flush = none ∧
    (bluetooth_a2dp_write io data codesize step buff size enc send).codesize =
      a2dp_codesize data codesize ∧
    (bluetooth_a2dp_write io data codesize step buff size enc send).data.count =
      a2dp_codesize data codesize ∧
    (bluetooth_a2dp_write io data codesize step buff size enc send).data.a2dp =
      (a2dp_reserve_header data codesize).a2dp ∧
    (bluetooth_a2dp_write io data codesize step buff size enc send).data.hw_ptr = data.hw_ptr ∧
    (bluetooth_a2dp_write io data codesize step buff size enc send).encoder_input =
      some ((bluetooth_a2dp_write io data codesize step buff size enc send).data.buffer.take
        (a2dp_codesize data codesize).toNat) := by
  unfold bluetooth_a2dp_write at hfull ⊢
  simp only at hfull ⊢
  split_ifs at hfull ⊢ with h1
  · simp at hfull
  · exact ⟨rfl, rfl, rfl, by simpa using h1, rfl, reserve_header_hw_ptr _ _, rfl⟩

theorem a2dp_write_on_full (io : snd_pcm_ioplug_t) (d : bluetooth_data) (c : Int) (step : Nat)
    (buff : List Nat) (size : Nat) (enc : sbc_encode_result) (send : Nat → Int → Int)
    (hfs : 0 < step / 8) (hc : a2dp_codesize d c = c) (hd : d.count = c) :
    (bluetooth_a2dp_write io d c step buff size enc send).ret = 0 ∧
    (bluetooth_a2dp_write io d c step buff size enc send).encoder_input =
      some (d.buffer.take c.toNat) ∧
    (bluetooth_a2dp_write io d c step buff size enc send).data.buffer = d.buffer := by
  have hfs' : (0 : Int) < ((step / 8 : Nat) : Int) := by exact_mod_cast hfs
  have hz := frames_that_fit_full_pos c size ((step / 8 : Nat) : Int) hfs'
  unfold bluetooth_a2dp_write
  simp only [reserve_header_count, reserve_header_buffer, hc, hd, hz, memcpy_changeendian]
  simp [swab16_zero, store_nil]
  split_ifs with h
  · exact ⟨rfl, rfl, rfl⟩
  · refine ⟨rfl, rfl, ?_⟩
    unfold a2dp_append
    split_ifs <;> simp [a2dp_store_frame, avdtp_write]

/-- C6, counterexample: the encoder fails on the full 32-byte window; the
following call offers 20 new frames (size > 0) and returns 0, not a positive
count, whether the encoder now succeeds or fails again, and the bytes of the
failed window are still in the buffer: none of the new frames was consumed. -/
theorem a2dp_write_stalls_after_encode_failure :
    (bluetooth_a2dp_write sample_io sample_data 0 16 sample_pcm 20 failed_encode
      (fun _ n => n)).ret = 0 ∧
    (bluetooth_a2dp_write sample_io sample_data 0 16 sample_pcm 20 failed_encode
      (fun _ n => n)).data.count = 32 ∧
    (bluetooth_a2dp_write sample_io sample_data 0 16 sample_pcm 20 failed_encode
      (fun _ n => n)).codesize = 32 ∧
    (bluetooth_a2dp_write sample_io
      (bluetooth_a2dp_write sample_io sample_data 0 16 sample_pcm 20 failed_encode
      (fun _ n => n)).data 32 16
      (List.replicate 64 7) 20 short_frame (fun _ n => n)).ret = 0 ∧
    (bluetooth_a2dp_write sample_io
      (bluetooth_a2dp_write sample_io sample_data 0 16 sample_pcm 20 failed_encode
      (fun _ n => n)).data 32 16
      (List.replicate 64 7) 20 failed_encode (fun _ n => n)).ret = 0 ∧
    (bluetooth_a2dp_write sample_io
      (bluetooth_a2dp_write sample_io sample_data 0 16 sample_pcm 20 failed_encode
      (fun _ n => n)).data 32 16
      (List.replicate 64 7) 20 short_frame (fun _ n => n)).data.buffer =
      (bluetooth_a2dp_write sample_io sample_data 0 16 sample_pcm 20 failed_encode
      (fun _ n => n)).data.buffer ∧
    (bluetooth_a2dp_write sample_io
      (bluetooth_a2dp_write sample_io sample_data 0 16 sample_pcm 20 failed_encode
      (fun _ n => n)).data 32 16
      (List.replicate 64 7) 20 short_frame (fun _ n => n)).encoder_input =
      (bluetooth_a2dp_write sample_io sample_data 0 16 sample_pcm 20 failed_encode
      (fun _ n => n)).encoder_input := by
  decide

/-- C6, amended: when the encoder returns a non-positive value on a full
accumulation buffer, `bluetooth_a2dp_write` returns 0, appends nothing to the
packet, leaves the position counter alone and keeps the buffer full; the
following transfer call (with a positive frame size) takes no frame from the
caller: it returns 0, leaves the bytes of the buffer as they are and hands the
same window to the encoder again. -/
theorem a2dp_write_encode_failure_keeps_window (io : snd_pcm_ioplug_t) (data : bluetooth_data)
    (codesize : Int) (step : Nat) (buff : List Nat) (size : Nat) (enc : sbc_encode_result)
    (send : Nat → Int → Int)
    (io1 : snd_pcm_ioplug_t) (step1 : Nat) (buff1 : List Nat) (size1 : Nat)
    (enc1 : sbc_encode_result) (send1 : Nat → Int → Int)
    (hfull : (bluetooth_a2dp_write io data codesize step buff size enc send).encoder_input ≠ none)
    (hfail : enc.encoded ≤ 0) (hfs : 0 < step1 / 8) :
    (bluetooth_a2dp_write io data codesize step buff size enc send).ret = 0 ∧
    (bluetooth_a2dp_write io data codesize step buff size enc send).flush = none ∧
    (bluetooth_a2dp_write io data codesize step buff size enc send).data.a2dp =
      (a2dp_reserve_header data codesize).a2dp ∧
    (bluetooth_a2dp_write io data codesize step buff size enc send).data.hw_ptr = data.hw_ptr ∧
    (bluetooth_a2dp_write io data codesize step buff size enc send).data.count =
      (bluetooth_a2dp_write io data codesize step buff size enc send).codesize ∧
    (bluetooth_a2dp_write io1 (bluetooth_a2dp_write io data codesize step buff size enc send).data
      (bluetooth_a2dp_write io data codesize step buff size enc send).codesize
      step1 buff1 size1 enc1 send1).ret = 0 ∧
    (bluetooth_a2dp_write io1 (bluetooth_a2dp_write io data codesize step buff size enc send).data
      (bluetooth_a2dp_write io data codesize step buff size enc send).codesize
      step1 buff1 size1 enc1 send1).encoder_input =
        (bluetooth_a2dp_write io data codesize step buff size enc send).encoder_input ∧
    (bluetooth_a2dp_write io1 (bluetooth_a2dp_write io data codesize step buff size enc send).data
      (bluetooth_a2dp_write io data codesize step buff size enc send).codesize
      step1 buff1 size1 enc1 send1).data.buffer =
        (bluetooth_a2dp_write io data codesize step buff size enc send).data.buffer := by
  obtain ⟨h1, h2, h3, h4, h5, h6, h7⟩ :=
    a2dp_write_encode_failed io data codesize step buff size enc send hfull hfail
  have hidem : a2dp_codesize (bluetooth_a2dp_write io data codesize step buff size enc send).data
      (bluetooth_a2dp_write io data codesize step buff size enc send).codesize =
      (bluetooth_a2dp_write io data codesize step buff size enc send).codesize := by
    rw [h3]; apply a2dp_codesize_idem; rw [h5, reserve_header_sbc]
  obtain ⟨k1, k2, k3⟩ := a2dp_write_on_full io1 _ _ step1 buff1 size1 enc1 send1 hfs hidem
    (by rw [h4, h3])
  refine ⟨h1, h2, h5, h6, by rw [h4, h3], k1, ?_, k3⟩
  rw [k2, h7, h3]

theorem a2dp_write_encode_failure_keeps_window_witness :
    ((bluetooth_a2dp_write sample_io sample_data (0 : Int) 16 sample_pcm 20 failed_encode (fun _ n => n)).encoder_input ≠ none) ∧
    (failed_encode.encoded ≤ 0) ∧
    (0 < 16 / 8) ∧
    ((bluetooth_a2dp_write sample_io sample_data (0 : Int) 16 sample_pcm 20 failed_encode (fun _ n => n)).ret = 0 ∧
    (bluetooth_a2dp_write sample_io sample_data (0 : Int) 16 sample_pcm 20 failed_encode (fun _ n => n)).flush = none ∧
    (bluetooth_a2dp_write sample_io sample_data (0 : Int) 16 sample_pcm 20 failed_encode (fun _ n => n)).data.a2dp =
      (a2dp_reserve_header sample_data (0 : Int)).a2dp ∧
    (bluetooth_a2dp_write sample_io sample_data (0 : Int) 16 sample_pcm 20 failed_encode (fun _ n => n)).data.hw_ptr = sample_data.hw_ptr ∧
    (bluetooth_a2dp_write sample_io sample_data (0 : Int) 16 sample_pcm 20 failed_encode (fun _ n => n)).data.count =
      (bluetooth_a2dp_write sample_io sample_data (0 : Int) 16 sample_pcm 20 failed_encode (fun _ n => n)).codesize ∧
    (bluetooth_a2dp_write sample_io (bluetooth_a2dp_write sample_io sample_data (0 : Int) 16 sample_pcm 20 failed_encode (fun _ n => n)).data
      (bluetooth_a2dp_write sample_io sample_data (0 : Int) 16 sample_pcm 20 failed_encode (fun _ n => n)).codesize
      16 (List.replicate 64 7) 20 short_frame (fun _ n => n)).ret = 0 ∧
    (bluetooth_a2dp_write sample_io (bluetooth_a2dp_write sample_io sample_data (0 : Int) 16 sample_pcm 20 failed_encode (fun _ n => n)).data
      (bluetooth_a2dp_write sample_io sample_data (0 : Int) 16 sample_pcm 20 failed_encode (fun _ n => n)).codesize
      16 (List.replicate 64 7) 20 short_frame (fun _ n => n)).encoder_input =
        (bluetooth_a2dp_write sample_io sample_data (0 : Int) 16 sample_pcm 20 failed_encode (fun _ n => n)).encoder_input ∧
    (bluetooth_a2dp_write sample_io (bluetooth_a2dp_write sample_io sample_data (0 : Int) 16 sample_pcm 20 failed_encode (fun _ n => n)).data
      (bluetooth_a2dp_write sample_io sample_data (0 : Int) 16 sample_pcm 20 failed_encode (fun _ n => n)).codesize
      16 (List.replicate 64 7) 20 short_frame (fun _ n => n)).data.buffer =
        (bluetooth_a2dp_write sample_io sample_data (0 : Int) 16 sample_pcm 20 failed_encode (fun _ n => n)).data.buffer) :=
  ⟨by decide, by decide, by decide,
    a2dp_write_encode_failure_keeps_window sample_io sample_data 0 16 sample_pcm 20
      failed_encode (fun _ n => n) sample_io 16 (List.replicate 64 7) 20 short_frame
      (fun _ n => n) (by decide) (by decide) (by decide)⟩

/-! ## The encode path: the result of the flush -/

theorem avdtp_send_loop_last (send : Nat → Int → Int) :
    ∀ (left k : Nat) (cnt w : Int) (reqs : List Int), reqs.length = k →
      (avdtp_send_loop send (left + 1) k cnt w reqs).2.2 ≠ [] ∧
      (avdtp_send_loop send (left + 1) k cnt w reqs).1 =
        send ((avdtp_send_loop send (left + 1) k cnt w reqs).2.2.length - 1)
          ((avdtp_send_loop send (left + 1) k cnt w reqs).2.2.getLast?.getD 0) := by
  intro left
  induction left with
  | zero =>
    intro k cnt w reqs hk
    simp only [avdtp_send_loop]
    split_ifs <;> simp [hk]
  | succ left ih =>
    intro k cnt w reqs hk
    rw [avdtp_send_loop]
    split_ifs with h
    · simp [hk]
    · exact ih (k + 1) _ _ _ (by simp [hk])

theorem a2dp_write_ret_indep (io : snd_pcm_ioplug_t) (data : bluetooth_data) (codesize : Int)
    (step : Nat) (buff : List Nat) (size : Nat) (enc : sbc_encode_result)
    (send send1 : Nat → Int → Int) :
    (bluetooth_a2dp_write io data codesize step buff size enc send1).ret =
      (bluetooth_a2dp_write io data codesize step buff size enc send).ret := by
  unfold bluetooth_a2dp_write
  simp only
  split_ifs <;> rfl

/-- C7, counterexample: a call of `bluetooth_a2dp_write` triggers a flush all
of whose sends return 0 (a zero-byte outcome): `avdtp_write` returns 0, a byte
count and no error, and the transfer call returns 16 consumed frames.  When
all sends fail with -1, `avdtp_write` returns -1 and the transfer call again
returns 16, not a negative error code. -/
theorem a2dp_write_hides_flush_failure :
    (bluetooth_a2dp_write sample_io sample_data 0 16 sample_pcm 20 long_frame
      (fun _ _ => 0)).flush.map (fun r => r.ret) = some 0 ∧
    (bluetooth_a2dp_write sample_io sample_data 0 16 sample_pcm 20 long_frame
      (fun _ _ => 0)).ret = 16 ∧
    (bluetooth_a2dp_write sample_io sample_data 0 16 sample_pcm 20 long_frame
      (fun _ _ => -1)).flush.map (fun r => r.ret) = some (-1) ∧
    (bluetooth_a2dp_write sample_io sample_data 0 16 sample_pcm 20 long_frame
      (fun _ _ => -1)).ret = 16 := by
  decide

/-- C7, amended: `avdtp_write` returns the value of its last `send` as it is
(0 after a zero-byte send, the negative result of `send` after a socket
error), and `bluetooth_a2dp_write` does not look at it: the transfer call that
triggered the flush returns the number of frames it took from the caller, a
non-negative count that is the same for every outcome of the sends. -/
theorem a2dp_write_ignores_flush_result (io : snd_pcm_ioplug_t) (data : bluetooth_data)
    (codesize : Int) (step : Nat) (buff : List Nat) (size : Nat) (enc : sbc_encode_result)
    (send send1 : Nat → Int → Int) (d : bluetooth_data)
    (hc : data.count ≤ a2dp_codesize data codesize) (hfs : 0 < step / 8)
    (hflush : (bluetooth_a2dp_write io data codesize step buff size enc send).flush ≠ none) :
    (avdtp_write d send).ret =
      send ((avdtp_write d send).sends.length - 1) ((avdtp_write d send).sends.getLast?.getD 0) ∧
    (bluetooth_a2dp_write io data codesize step buff size enc send).ret =
      frames_that_fit data.count size ((step / 8 : Nat) : Int) (a2dp_codesize data codesize) ∧
    0 ≤ (bluetooth_a2dp_write io data codesize step buff size enc send).ret ∧
    (bluetooth_a2dp_write io data codesize step buff size enc send1).ret =
      (bluetooth_a2dp_write io data codesize step buff size enc send).ret := by
  have hfs' : (0 : Int) < ((step / 8 : Nat) : Int) := by exact_mod_cast hfs
  have hb := frames_that_fit_bounds data.count size ((step / 8 : Nat) : Int)
    (a2dp_codesize data codesize) hc hfs'
  have hret : (bluetooth_a2dp_write io data codesize step buff size enc send).ret =
      frames_that_fit data.count size ((step / 8 : Nat) : Int) (a2dp_codesize data codesize) := by
    unfold bluetooth_a2dp_write at hflush ⊢
    simp only [reserve_header_count] at hflush ⊢
    split_ifs at hflush ⊢
    · exact absurd rfl hflush
    · exact absurd rfl hflush
    · rfl
  refine ⟨(avdtp_send_loop_last send 9 0 d.a2dp.count 0 [] rfl).2, hret, ?_,
    a2dp_write_ret_indep io data codesize step buff size enc send send1⟩
  rw [hret]; exact hb.1

theorem a2dp_write_ignores_flush_result_witness :
    (sample_data.count ≤ a2dp_codesize sample_data (0 : Int)) ∧
    (0 < 16 / 8) ∧
    ((bluetooth_a2dp_write sample_io sample_data (0 : Int) 16 sample_pcm 20 long_frame (fun _ _ => 0)).flush ≠ none) ∧
    ((avdtp_write sample_data (fun _ _ => 0)).ret =
      (fun _ _ => 0) ((avdtp_write sample_data (fun _ _ => 0)).sends.length - 1) ((avdtp_write sample_data (fun _ _ => 0)).sends.getLast?.getD 0) ∧
    (bluetooth_a2dp_write sample_io sample_data (0 : Int) 16 sample_pcm 20 long_frame (fun _ _ => 0)).ret =
      frames_that_fit sample_data.count 20 ((16 / 8 : Nat) : Int) (a2dp_codesize sample_data (0 : Int)) ∧
    0 ≤ (bluetooth_a2dp_write sample_io sample_data (0 : Int) 16 sample_pcm 20 long_frame (fun _ _ => 0)).ret ∧
    (bluetooth_a2dp_write sample_io sample_data (0 : Int) 16 sample_pcm 20 long_frame (fun _ n => n)).ret =
      (bluetooth_a2dp_write sample_io sample_data (0 : Int) 16 sample_pcm 20 long_frame (fun _ _ => 0)).ret) :=
  ⟨by decide, by decide, by decide,
    a2dp_write_ignores_flush_result sample_io sample_data 0 16 sample_pcm 20 long_frame
      (fun _ _ => 0) (fun _ n => n) sample_data (by decide) (by decide) (by decide)⟩

/-! ## The handshake -/

/-- C8: for a response that passes the type and the status check (the
receives having delivered something), a declared length that differs from the
number of bytes received minus the header size (the first receive, plus the
SBC extension when the codec is SBC) makes `bluetooth_cfg` return `-EINVAL`
with the session data, and so the stored configuration, exactly as it was:
such a response is never accepted. -/
theorem bluetooth_cfg_rejects_size_mismatch (K : ipc_h) (data : bluetooth_data)
    (env : cfg_outcome)
    (hsend : 0 < env.send_ret) (hrecv : 0 < env.recv_ret)
    (htype : env.pkt_type = K.PKT_TYPE_CFG_RSP) (hstatus : env.pkt_error = K.PKT_ERROR_NONE)
    (hsbc : env.cfg.codec = K.CFG_CODEC_SBC → 0 < env.sbc_ret)
    (hmis : (env.pkt_length : Int) ≠ cfg_total K env - (K.sizeof_ipc_packet : Int)) :
    bluetooth_cfg K data env = (- EINVAL, data) ∧
    (bluetooth_cfg K data env).1 ≠ 0 ∧
    (bluetooth_cfg K data env).2.cfg = data.cfg := by
  have h : bluetooth_cfg K data env = (- EINVAL, data) := by
    unfold bluetooth_cfg
    rw [if_neg (by omega), if_neg (by omega), if_neg (by omega), if_neg (by omega)]
    simp only [htype, hstatus, ne_eq, not_true_eq_false, if_false]
    by_cases hcodec : env.cfg.codec = K.CFG_CODEC_SBC
    · have hpos := hsbc hcodec
      rw [if_neg (by simp [hcodec]), if_neg (by omega), if_neg (by omega)]
      unfold bluetooth_cfg_done
      rw [if_pos (by simpa [cfg_total, hcodec] using hmis)]
    · rw [if_pos hcodec]
      unfold bluetooth_cfg_done
      rw [if_pos (by simpa [cfg_total, hcodec] using hmis)]
  rw [h]
  exact ⟨rfl, by simp [EINVAL], rfl⟩

theorem bluetooth_cfg_rejects_size_mismatch_witness :
    (0 < sample_short_handshake.send_ret) ∧
    (0 < sample_short_handshake.recv_ret) ∧
    (sample_short_handshake.pkt_type = sample_ipc.PKT_TYPE_CFG_RSP) ∧
    (sample_short_handshake.pkt_error = sample_ipc.PKT_ERROR_NONE) ∧
    (sample_short_handshake.cfg.codec = sample_ipc.CFG_CODEC_SBC → 0 < sample_short_handshake.sbc_ret) ∧
    ((sample_short_handshake.pkt_length : Int) ≠ cfg_total sample_ipc sample_short_handshake - (sample_ipc.sizeof_ipc_packet : Int)) ∧
    (bluetooth_cfg sample_ipc sample_data sample_short_handshake = (- EINVAL, sample_data) ∧
    (bluetooth_cfg sample_ipc sample_data sample_short_handshake).1 ≠ 0 ∧
    (bluetooth_cfg sample_ipc sample_data sample_short_handshake).2.cfg = sample_data.cfg) :=
  ⟨by decide, by decide, by decide, by decide, fun _ => by decide, by decide,
    bluetooth_cfg_rejects_size_mismatch sample_ipc sample_data sample_short_handshake
      (by decide) (by decide) (by decide) (by decide) (fun _ => by decide) (by decide)⟩

/-- The `return 0` of the loop body of `bluetooth_recvmsg_fd` is not under the
`if`: on an ancillary list whose first entry is not of type `SCM_RIGHTS` the
function returns 0 with `stream_fd` as it was, also when an `SCM_RIGHTS` entry
(descriptor 9) comes second.  Neither list is one that this socket delivers. -/
theorem recvmsg_fd_accepts_other_ancillary :
    bluetooth_recvmsg_fd sample_ipc sample_data
      { ret := 5, errno := 0, pkt_type := 1,
        cmsgs := [{ cmsg_level := SOL_SOCKET, cmsg_type := 2, cmsg_data := 9 }] } =
      (0, sample_data) ∧
    deliverable [{ cmsg_level := SOL_SOCKET, cmsg_type := 2, cmsg_data := 9 }] = false ∧
    bluetooth_recvmsg_fd sample_ipc sample_data
      { ret := 5, errno := 0, pkt_type := 1,
        cmsgs := [{ cmsg_level := SOL_SOCKET, cmsg_type := 2, cmsg_data := 0 },
                  { cmsg_level := SOL_SOCKET, cmsg_type := SCM_RIGHTS, cmsg_data := 9 }] } =
      (0, sample_data) ∧
    deliverable [{ cmsg_level := SOL_SOCKET, cmsg_type := 2, cmsg_data := 0 },
                 { cmsg_level := SOL_SOCKET, cmsg_type := SCM_RIGHTS, cmsg_data := 9 }] = false ∧
    sample_data.stream_fd = 7 := by
  decide

/-- C10, the code at the failing input: the peer answers with the status 1
instead of SUCCESS; `bluetooth_cfg` returns 1, which the test `err < 0` of the
constructor lets through: the constructor does not take its error path, calls
`snd_pcm_ioplug_create`, sets `*pcmp` and returns 0.  The same happens when the
descriptor is missing and the ancillary data holds an entry of another type. -/
theorem plugin_created_after_peer_error :
    (bluetooth_cfg sample_ipc zeroed_data { sample_handshake with pkt_error := 1 }).1 = 1 ∧
    (snd_pcm_plugin_bluetooth sample_ipc true
      (sample_plugin { sample_handshake with pkt_error := 1 })).ret = 0 ∧
    (snd_pcm_plugin_bluetooth sample_ipc true
      (sample_plugin { sample_handshake with pkt_error := 1 })).error_path = false ∧
    (snd_pcm_plugin_bluetooth sample_ipc true
      (sample_plugin { sample_handshake with pkt_error := 1 })).create_called = true ∧
    (snd_pcm_plugin_bluetooth sample_ipc true
      (sample_plugin { sample_handshake with pkt_error := 1 })).pcm_set = true ∧
    (snd_pcm_plugin_bluetooth sample_ipc true
      (sample_plugin { sample_handshake with msg := sample_other_msg })).ret = 0 ∧
    (snd_pcm_plugin_bluetooth sample_ipc true
      (sample_plugin { sample_handshake with msg := sample_other_msg })).error_path = false ∧
    (snd_pcm_plugin_bluetooth sample_ipc true
      (sample_plugin { sample_handshake with msg := sample_other_msg })).poll_fd = some 0 := by
  decide

/-! ## The byte swap -/

theorem swab16_length (n : Nat) : ∀ src : List Nat, src.length = 2 * n →
    (swab16 n src).length = 2 * n := by
  induction n with
  | zero => intro src _; simp [swab16_zero]
  | succ n ih =>
    intro src h
    match src, h with
    | a :: b :: rest, h =>
      simp only [swab16, List.length_cons]
      rw [ih rest (by simp at h; omega)]
      omega

theorem swab16_swab16 (n : Nat) : ∀ src : List Nat, src.length = 2 * n →
    swab16 n (swab16 n src) = src := by
  induction n with
  | zero => intro src h; simp at h; simp [h, swab16]
  | succ n ih =>
    intro src h
    match src, h with
    | a :: b :: rest, h =>
      simp only [swab16]
      rw [ih rest (by simp at h; omega)]

theorem swab16_getD (n : Nat) : ∀ (src : List Nat) (i : Nat), src.length = 2 * n →
    (swab16 n src).getD (2 * i) 0 = src.getD (2 * i + 1) 0 ∧
    (swab16 n src).getD (2 * i + 1) 0 = src.getD (2 * i) 0 := by
  induction n with
  | zero => intro src i h; simp at h; simp [h, swab16]
  | succ n ih =>
    intro src i h
    match src, h with
    | a :: b :: rest, h =>
      cases i with
      | zero => simp [swab16]
      | succ i =>
        have hr := ih rest i (by simp at h; omega)
        simp only [swab16]
        have e1 : 2 * (i + 1) = (2 * i) + 1 + 1 := by omega
        have e2 : 2 * (i + 1) + 1 = (2 * i + 1) + 1 + 1 := by omega
        rw [e2, e1]
        simpa using hr

/-- C11: for every even size and every source buffer of that size,
`memcpy_changeendian` writes exactly `size` bytes, in which every 16-bit sample
has its two bytes exchanged, and applied to its own output it gives the
original bytes back. -/
theorem memcpy_changeendian_self_inverse (src : List Nat) (size : Int) (i : Nat)
    (heven : size % 2 = 0) (hlen : (src.length : Int) = size) :
    ((memcpy_changeendian src size).length : Int) = size ∧
    memcpy_changeendian (memcpy_changeendian src size) size = src ∧
    (memcpy_changeendian src size).getD (2 * i) 0 = src.getD (2 * i + 1) 0 ∧
    (memcpy_changeendian src size).getD (2 * i + 1) 0 = src.getD (2 * i) 0 := by
  have hn : src.length = 2 * (Int.tdiv size 2).toNat := by
    rw [Int.tdiv_eq_ediv (by omega) (by omega)]
    omega
  unfold memcpy_changeendian
  refine ⟨?_, swab16_swab16 _ src hn, swab16_getD _ src i hn⟩
  rw [swab16_length _ src hn]
  omega

theorem memcpy_changeendian_self_inverse_witness :
    ((4 : Int) % 2 = 0) ∧
    (([1, 2, 3, 4].length : Int) = (4 : Int)) ∧
    (((memcpy_changeendian [1, 2, 3, 4] (4 : Int)).length : Int) = (4 : Int) ∧
    memcpy_changeendian (memcpy_changeendian [1, 2, 3, 4] (4 : Int)) (4 : Int) = [1, 2, 3, 4] ∧
    (memcpy_changeendian [1, 2, 3, 4] (4 : Int)).getD (2 * 0) 0 = [1, 2, 3, 4].getD (2 * 0 + 1) 0 ∧
    (memcpy_changeendian [1, 2, 3, 4] (4 : Int)).getD (2 * 0 + 1) 0 = [1, 2, 3, 4].getD (2 * 0) 0) :=
  ⟨by decide, by decide,
    memcpy_changeendian_self_inverse [1, 2, 3, 4] 4 0 (by decide) (by decide)⟩

/-! ## The flush: the sends of one call -/

theorem avdtp_send_loop_spec (send : Nat → Int → Int) (c : Int) :
    ∀ (left k : Nat) (w : Int) (reqs : List Int),
      reqs = (List.range k).map (avdtp_requested send c) →
      (avdtp_send_loop send (left + 1) k (avdtp_requested send c k) w reqs).2.2 =
        (List.range (avdtp_send_loop send (left + 1) k (avdtp_requested send c k) w
          reqs).2.2.length).map (avdtp_requested send c) ∧
      k < (avdtp_send_loop send (left + 1) k (avdtp_requested send c k) w reqs).2.2.length ∧
      (avdtp_send_loop send (left + 1) k (avdtp_requested send c k) w reqs).2.2.length ≤
        k + left + 1 ∧
      (∀ j, k ≤ j →
        j + 1 < (avdtp_send_loop send (left + 1) k (avdtp_requested send c k) w reqs).2.2.length →
        send j (avdtp_requested send c j) ≠ avdtp_requested send c j) ∧
      (avdtp_send_loop send (left + 1) k (avdtp_requested send c k) w reqs).1 =
        send ((avdtp_send_loop send (left + 1) k (avdtp_requested send c k) w reqs).2.2.length - 1)
          (avdtp_requested send c
            ((avdtp_send_loop send (left + 1) k (avdtp_requested send c k) w reqs).2.2.length - 1)) ∧
      ((avdtp_send_loop send (left + 1) k (avdtp_requested send c k) w reqs).2.2.length =
          k + left + 1 ∨
        (avdtp_send_loop send (left + 1) k (avdtp_requested send c k) w reqs).1 =
          avdtp_requested send c
            ((avdtp_send_loop send (left + 1) k (avdtp_requested send c k) w reqs).2.2.length - 1)) := by
  intro left
  induction left with
  | zero =>
    intro k w reqs hr
    have hl : (reqs ++ [avdtp_requested send c k]).length = k + 1 := by simp [hr]
    have hm : reqs ++ [avdtp_requested send c k] =
        (List.range (k + 1)).map (avdtp_requested send c) := by
      simp [hr, List.range_succ]
    simp only [avdtp_send_loop]
    split_ifs with h
    · simp only [hl]
      exact ⟨hm, by omega, by omega, fun j h1 h2 => by omega, by simp, Or.inl trivial⟩
    · simp only [hl]
      exact ⟨hm, by omega, by omega, fun j h1 h2 => by omega, by simp, Or.inl trivial⟩
  | succ left ih =>
    intro k w reqs hr
    have hl : (reqs ++ [avdtp_requested send c k]).length = k + 1 := by simp [hr]
    have hm : reqs ++ [avdtp_requested send c k] =
        (List.range (k + 1)).map (avdtp_requested send c) := by
      simp [hr, List.range_succ]
    rw [avdtp_send_loop]
    split_ifs with h
    · simp only [hl]
      exact ⟨hm, by omega, by omega, fun j h1 h2 => by omega, by simp, Or.inr (by simpa using h)⟩
    · have hstep : avdtp_requested send c k - send k (avdtp_requested send c k) =
          avdtp_requested send c (k + 1) := rfl
      rw [hstep]
      obtain ⟨i1, i2, i3, i4, i5, i6⟩ := ih (k + 1) (send k (avdtp_requested send c k)) _ hm
      refine ⟨i1, by omega, by omega, ?_, i5, ?_⟩
      · intro j h1 h2
        rcases Nat.eq_or_lt_of_le h1 with h3 | h3
        · subst h3; exact h
        · exact i4 j (by omega) h2
      · rcases i6 with h6 | h6
        · exact Or.inl (by omega)
        · exact Or.inr h6

theorem getD_map_range (f : Nat → Int) (n j : Nat) (h : j < n) :
    ((List.range n).map f).getD j 0 = f j := by
  simp [List.getD, List.getElem?_map, List.getElem?_range h]

theorem avdtp_write_trace (data : bluetooth_data) (send : Nat → Int → Int) :
    (avdtp_write data send).sends =
      (List.range (avdtp_write data send).sends.length).map
        (avdtp_requested send data.a2dp.count) ∧
    1 ≤ (avdtp_write data send).sends.length ∧
    (avdtp_write data send).sends.length ≤ 10 := by
  obtain ⟨i1, i2, i3, -, -, -⟩ :=
    avdtp_send_loop_spec send data.a2dp.count 9 0 0 [] rfl
  have hs : (avdtp_write data send).sends =
      (avdtp_send_loop send 10 0 data.a2dp.count 0 []).2.2 := rfl
  have hreq : avdtp_requested send data.a2dp.count 0 = data.a2dp.count := rfl
  rw [hreq] at i1 i2 i3
  simp only [Nat.reduceAdd] at i1 i2 i3
  rw [hs]
  exact ⟨i1, by omega, by omega⟩

theorem avdtp_write_first_request (data : bluetooth_data) (send : Nat → Int → Int) :
    (avdtp_write data send).sends.getD 0 0 = data.a2dp.count := by
  obtain ⟨i1, i2, -⟩ := avdtp_write_trace data send
  rw [i1, getD_map_range _ _ _ (by omega)]
  rfl

/-- C12: whatever the packet state and the outcomes of the sends,
`avdtp_write` issues at least one and at most 10 sends; no attempt before the
last returned the byte count it was asked for, and the last one did unless all
10 attempts were used.  In particular, when the first three attempts are short
and the fourth is full, there are 4 attempts, the value returned is what the
fourth send returned, which is the count it was asked for, and the sequence
number is stepped once. -/
theorem avdtp_write_stops_at_full_send (data : bluetooth_data) (send : Nat → Int → Int) :
    1 ≤ (avdtp_write data send).sends.length ∧
    (avdtp_write data send).sends.length ≤ 10 ∧
    (∀ j, j + 1 < (avdtp_write data send).sends.length →
      send j ((avdtp_write data send).sends.getD j 0) ≠ (avdtp_write data send).sends.getD j 0) ∧
    ((avdtp_write data send).sends.length = 10 ∨
      send ((avdtp_write data send).sends.length - 1)
          ((avdtp_write data send).sends.getD ((avdtp_write data send).sends.length - 1) 0) =
        (avdtp_write data send).sends.getD ((avdtp_write data send).sends.length - 1) 0) ∧
    ((∀ k, k < 3 → send k (avdtp_requested send data.a2dp.count k) ≠ avdtp_requested send data.a2dp.count k) →
      send 3 (avdtp_requested send data.a2dp.count 3) = avdtp_requested send data.a2dp.count 3 →
      (avdtp_write data send).sends.length = 4 ∧
      (avdtp_write data send).ret = send 3 ((avdtp_write data send).sends.getD 3 0) ∧
      (avdtp_write data send).ret = (avdtp_write data send).sends.getD 3 0 ∧
      (avdtp_write data send).data.a2dp.seq_num = (data.a2dp.seq_num + 1) % 65536) := by
  obtain ⟨i1, i2, i3, i4, i5, i6⟩ :=
    avdtp_send_loop_spec send data.a2dp.count 9 0 0 [] rfl
  have hs : (avdtp_write data send).sends =
      (avdtp_send_loop send 10 0 data.a2dp.count 0 []).2.2 := rfl
  have hret : (avdtp_write data send).ret =
      (avdtp_send_loop send 10 0 data.a2dp.count 0 []).1 := rfl
  have hreq : avdtp_requested send data.a2dp.count 0 = data.a2dp.count := rfl
  rw [hreq] at i1 i2 i3 i4 i5 i6
  simp only [Nat.reduceAdd] at i1 i2 i3 i4 i5 i6
  rw [hs, hret]
  generalize (avdtp_send_loop send 10 0 data.a2dp.count 0 []).2.2 = S at *
  generalize (avdtp_send_loop send 10 0 data.a2dp.count 0 []).1 = W at *
  have hg : ∀ j, j < S.length → S.getD j 0 = avdtp_requested send data.a2dp.count j := by
    intro j hj
    rw [i1, getD_map_range _ _ _ (by simpa using hj)]
  have hlast : send (S.length - 1) (S.getD (S.length - 1) 0) = W := by
    rw [hg _ (by omega), i5]
  refine ⟨by omega, by omega, ?_, ?_, ?_⟩
  · intro j hj
    rw [hg j (by omega)]
    exact i4 j (by omega) hj
  · rcases i6 with h | h
    · exact Or.inl (by omega)
    · right; rw [hlast, hg _ (by omega)]; exact h
  · intro hshort hfull
    have h4 : S.length ≤ 4 := by
      by_contra hc
      exact i4 3 (by omega) (by omega) hfull
    have h4' : 4 ≤ S.length := by
      by_contra hc
      rcases i6 with h | h
      · omega
      · rw [i5] at h
        exact hshort (S.length - 1) (by omega) h
    have h5 : S.length = 4 := by omega
    rw [h5] at hlast hg
    have h3 := hg 3 (by omega)
    refine ⟨h5, hlast.symm, ?_, rfl⟩
    rw [← hlast, h3]; exact hfull

theorem avdtp_write_stops_at_full_send_witness :
    (∀ k, k < 3 → (fun k n => if k < 3 then 5 else n) k (avdtp_requested (fun k n => if k < 3 then 5 else n) sample_data.a2dp.count k) ≠ avdtp_requested (fun k n => if k < 3 then 5 else n) sample_data.a2dp.count k) ∧
    ((fun k n => if k < 3 then 5 else n) 3 (avdtp_requested (fun k n => if k < 3 then 5 else n) sample_data.a2dp.count 3) = avdtp_requested (fun k n => if k < 3 then 5 else n) sample_data.a2dp.count 3) ∧
    ((avdtp_write sample_data (fun k n => if k < 3 then 5 else n)).sends.length = 4 ∧
      (avdtp_write sample_data (fun k n => if k < 3 then 5 else n)).ret = (fun k n => if k < 3 then 5 else n) 3 ((avdtp_write sample_data (fun k n => if k < 3 then 5 else n)).sends.getD 3 0) ∧
      (avdtp_write sample_data (fun k n => if k < 3 then 5 else n)).ret = (avdtp_write sample_data (fun k n => if k < 3 then 5 else n)).sends.getD 3 0 ∧
      (avdtp_write sample_data (fun k n => if k < 3 then 5 else n)).data.a2dp.seq_num = (sample_data.a2dp.seq_num + 1) % 65536) :=
  ⟨by decide, by decide,
    (avdtp_write_stops_at_full_send sample_data (fun k n => if k < 3 then 5 else n)).2.2.2.2
      (by decide) (by decide)⟩

/-- C13: whatever the packet state, the buffer that `avdtp_write` hands to
`send` starts with: byte 0 = 0x80 (version 2, no padding, no extension, no
CSRC), byte 1 = 0x01 (no marker, payload type 1), bytes 2-3 the 16-bit
sequence number in big-endian order, bytes 4-7 the 32 bits of `nsamples` in
big-endian order, bytes 8-11 the identifier 1 in big-endian order, and byte 12
the payload descriptor, whose upper four bits (the fragmentation flags and the
reserved bit) are 0 and whose lower four bits are those of the frame counter;
the bytes from offset 13 on are the ones the packet held.  The bit fields are
laid out as on a little-endian host. -/
theorem avdtp_write_header_bytes (data : bluetooth_data) (send : Nat → Int → Int) :
    (avdtp_write data send).packet.getD 0 0 = 128 ∧
    (avdtp_write data send).packet.getD 1 0 = 1 ∧
    (avdtp_write data send).packet.getD 2 0 < 256 ∧
    (avdtp_write data send).packet.getD 3 0 < 256 ∧
    (avdtp_write data send).packet.getD 2 0 * 256 + (avdtp_write data send).packet.getD 3 0 =
      data.a2dp.seq_num % 65536 ∧
    (avdtp_write data send).packet.getD 4 0 < 256 ∧
    (avdtp_write data send).packet.getD 5 0 < 256 ∧
    (avdtp_write data send).packet.getD 6 0 < 256 ∧
    (avdtp_write data send).packet.getD 7 0 < 256 ∧
    (((avdtp_write data send).packet.getD 4 0 * 16777216 +
        (avdtp_write data send).packet.getD 5 0 * 65536 +
        (avdtp_write data send).packet.getD 6 0 * 256 +
        (avdtp_write data send).packet.getD 7 0 : Nat) : Int) =
      data.a2dp.nsamples % 4294967296 ∧
    (avdtp_write data send).packet.getD 8 0 = 0 ∧
    (avdtp_write data send).packet.getD 9 0 = 0 ∧
    (avdtp_write data send).packet.getD 10 0 = 0 ∧
    (avdtp_write data send).packet.getD 11 0 = 1 ∧
    (avdtp_write data send).packet.getD 12 0 < 16 ∧
    (((avdtp_write data send).packet.getD 12 0 : Nat) : Int) = data.a2dp.frame_count % 16 ∧
    (avdtp_write data send).packet.drop 13 = data.a2dp.buffer.drop 13 := by
  simp only [avdtp_write, store, rtp_header_bytes, be32, List.take_zero, List.nil_append,
    List.append_assoc, List.cons_append, List.getD_cons_zero, List.getD_cons_succ,
    List.length_cons, List.length_nil, List.length_append, List.drop_succ_cons, List.drop_zero]
  refine ⟨?_, ?_, ?_, ?_, ?_, ?_, ?_, ?_, ?_, ?_, ?_, ?_, ?_, ?_, ?_, ?_, ?_⟩ <;>
    first
    | trivial
    | omega

/-- C20, counterexample: the packet holds 20 bytes and every send is short by
returning 5; the byte counts passed to `send` are 20, 15, 10 and 5, so the
second attempt already asks for 15 bytes, not for the 20 the packet held at
entry. -/
theorem avdtp_write_retry_shorter :
    (avdtp_write sample_data (fun _ _ => 5)).sends = [20, 15, 10, 5] ∧
    sample_data.a2dp.count = 20 ∧
    (avdtp_write sample_data (fun _ _ => 5)).sends.getD 1 0 ≠ sample_data.a2dp.count := by
  decide

/-- C20, amended: every attempt of `avdtp_write` sends from the start of the
same packet buffer, and the byte count passed on attempt `k` is the
bytes-used at entry minus what the earlier sends returned
(`a2dp->count -= written` after every attempt that did not return the count
asked for): the first attempt asks for the bytes-used at entry, each later one
for the count of the attempt before minus its result. -/
theorem avdtp_write_retry_requests (data : bluetooth_data) (send : Nat → Int → Int) :
    (avdtp_write data send).sends =
      (List.range (avdtp_write data send).sends.length).map
        (avdtp_requested send data.a2dp.count) ∧
    1 ≤ (avdtp_write data send).sends.length ∧
    (avdtp_write data send).sends.length ≤ 10 ∧
    (avdtp_write data send).sends.getD 0 0 = data.a2dp.count ∧
    avdtp_requested send data.a2dp.count 1 =
      data.a2dp.count - send 0 data.a2dp.count ∧
    avdtp_requested send data.a2dp.count 2 =
      data.a2dp.count - send 0 data.a2dp.count -
        send 1 (data.a2dp.count - send 0 data.a2dp.count) ∧
    (avdtp_write data send).packet =
      store data.a2dp.buffer 0 (rtp_header_bytes data.a2dp) := by
  obtain ⟨i1, i2, i3⟩ := avdtp_write_trace data send
  exact ⟨i1, i2, i3, avdtp_write_first_request data send, rfl, rfl, rfl⟩

/-! ## The position counter -/

theorem frames_that_fit_eq_min (count : Int) (size : Nat) (fs cap : Int)
    (hc : count ≤ cap) (hfs : 0 < fs) :
    frames_that_fit count size fs cap = min (size : Int) ((cap - count) / fs) := by
  unfold frames_that_fit
  have h1 : (cap - count) / fs * fs ≤ cap - count := Int.ediv_mul_le _ (by omega)
  have h2 : cap - count < ((cap - count) / fs + 1) * fs := by
    have := Int.lt_ediv_add_one_mul_self (cap - count) hfs
    linarith
  split_ifs with h
  · have h3 : (size : Int) * fs < ((cap - count) / fs + 1) * fs := by omega
    have h4 : (size : Int) < (cap - count) / fs + 1 := lt_of_mul_lt_mul_right h3 hfs.le
    rw [min_eq_left (by omega)]
  · rw [Int.tdiv_eq_ediv (by omega) (by omega)]
    have h3 : (cap - count) / fs * fs < (size : Int) * fs := by omega
    have h4 : (cap - count) / fs < (size : Int) := lt_of_mul_lt_mul_right h3 hfs.le
    rw [min_eq_right (by omega)]

theorem a2dp_append_hw_ptr (io : snd_pcm_ioplug_t) (data : bluetooth_data) (fs enc : Int)
    (send : Nat → Int → Int) :
    (a2dp_append io data fs enc send).1.hw_ptr =
      (data.hw_ptr + Int.tdiv enc fs) % (io.buffer_size : Int) := by
  unfold a2dp_append
  split_ifs <;> rfl

theorem a2dp_append_buffer (io : snd_pcm_ioplug_t) (data : bluetooth_data) (fs enc : Int)
    (send : Nat → Int → Int) :
    (a2dp_append io data fs enc send).1.buffer = data.buffer := by
  unfold a2dp_append
  split_ifs <;> rfl

/-- C14, counterexample: the buffer becomes full (40 bytes) and the send
returns 1, so 39 of the 40 bytes are not confirmed sent; `bluetooth_hsp_write`
moves `hw_ptr` from 0 to 20 all the same. -/
theorem hsp_write_short_send_moves_hw_ptr :
    (bluetooth_hsp_write sample_io sample_data 16 sample_pcm 20 1 0).sent =
      some (sample_pcm.take 40) ∧
    (1 : Int) < (sample_data.cfg.pkt_len : Int) ∧
    0 < sample_io.buffer_size ∧
    sample_data.hw_ptr = 0 ∧
    (bluetooth_hsp_write sample_io sample_data 16 sample_pcm 20 1 0).data.hw_ptr = 20 := by
  decide

/-- C14, amended: with a positive ring-buffer size, a call of
`bluetooth_hsp_write` that sends nothing, or whose send returns 0 or fails,
leaves `hw_ptr` as it was, and one whose send returns a positive count, be it
the packet length or less, sets it to
`(hw_ptr + pkt_len / frame_size) mod buffer_size`; a call of
`bluetooth_a2dp_write` that does not reach the encoder, or whose encoder
returns a non-positive value, leaves `hw_ptr` as it was, and one whose encoder
returns a positive value sets it to
`(hw_ptr + encoded / frame_size) mod buffer_size`.  The new value lies in
`[0, buffer_size)`. -/
theorem hw_ptr_advances_on_completion (io : snd_pcm_ioplug_t) (data : bluetooth_data)
    (step : Nat) (buff : List Nat) (size : Nat) (rsend errno codesize : Int)
    (enc : sbc_encode_result) (send : Nat → Int → Int)
    (hbs : 0 < io.buffer_size) :
    (((bluetooth_hsp_write io data step buff size rsend errno).sent = none ∨ rsend ≤ 0) ∧
      (bluetooth_hsp_write io data step buff size rsend errno).data.hw_ptr = data.hw_ptr ∨
     (bluetooth_hsp_write io data step buff size rsend errno).sent ≠ none ∧ 0 < rsend ∧
      (bluetooth_hsp_write io data step buff size rsend errno).data.hw_ptr =
        (data.hw_ptr + Int.tdiv (data.cfg.pkt_len : Int) ((step / 8 : Nat) : Int)) %
          (io.buffer_size : Int) ∧
      0 ≤ (bluetooth_hsp_write io data step buff size rsend errno).data.hw_ptr ∧
      (bluetooth_hsp_write io data step buff size rsend errno).data.hw_ptr <
        (io.buffer_size : Int)) ∧
    (((bluetooth_a2dp_write io data codesize step buff size enc send).encoder_input = none ∨
        enc.encoded ≤ 0) ∧
      (bluetooth_a2dp_write io data codesize step buff size enc send).data.hw_ptr = data.hw_ptr ∨
     (bluetooth_a2dp_write io data codesize step buff size enc send).encoder_input ≠ none ∧
      0 < enc.encoded ∧
      (bluetooth_a2dp_write io data codesize step buff size enc send).data.hw_ptr =
        (data.hw_ptr + Int.tdiv enc.encoded ((step / 8 : Nat) : Int)) % (io.buffer_size : Int) ∧
      0 ≤ (bluetooth_a2dp_write io data codesize step buff size enc send).data.hw_ptr ∧
      (bluetooth_a2dp_write io data codesize step buff size enc send).data.hw_ptr <
        (io.buffer_size : Int)) := by
  have hbs' : (0 : Int) < (io.buffer_size : Int) := by exact_mod_cast hbs
  have hm1 : ∀ x : Int, 0 ≤ x % (io.buffer_size : Int) :=
    fun x => Int.emod_nonneg _ (by omega)
  have hm2 : ∀ x : Int, x % (io.buffer_size : Int) < (io.buffer_size : Int) :=
    fun x => Int.emod_lt_of_pos _ hbs'
  constructor
  · unfold bluetooth_hsp_write
    simp only
    generalize ((step / 8 : Nat) : Int) = fs at *
    split_ifs with h1 h2 h3 <;> simp [hm1, hm2] <;> omega
  · unfold bluetooth_a2dp_write
    simp only
    generalize ((step / 8 : Nat) : Int) = fs at *
    split_ifs with h1 h2 <;>
      simp [hm1, hm2, a2dp_append_hw_ptr, reserve_header_hw_ptr] <;> omega

theorem hw_ptr_advances_on_completion_witness :
    (0 < sample_io.buffer_size) ∧
    ((((bluetooth_hsp_write sample_io sample_data 16 sample_pcm 20 (40 : Int) (0 : Int)).sent = none ∨ (40 : Int) ≤ 0) ∧
      (bluetooth_hsp_write sample_io sample_data 16 sample_pcm 20 (40 : Int) (0 : Int)).data.hw_ptr = sample_data.hw_ptr ∨
     (bluetooth_hsp_write sample_io sample_data 16 sample_pcm 20 (40 : Int) (0 : Int)).sent ≠ none ∧ 0 < (40 : Int) ∧
      (bluetooth_hsp_write sample_io sample_data 16 sample_pcm 20 (40 : Int) (0 : Int)).data.hw_ptr =
        (sample_data.hw_ptr + Int.tdiv (sample_data.cfg.pkt_len : Int) ((16 / 8 : Nat) : Int)) %
          (sample_io.buffer_size : Int) ∧
      0 ≤ (bluetooth_hsp_write sample_io sample_data 16 sample_pcm 20 (40 : Int) (0 : Int)).data.hw_ptr ∧
      (bluetooth_hsp_write sample_io sample_data 16 sample_pcm 20 (40 : Int) (0 : Int)).data.hw_ptr <
        (sample_io.buffer_size : Int)) ∧
    (((bluetooth_a2dp_write sample_io sample_data (0 : Int) 16 sample_pcm 20 short_frame (fun _ n => n)).encoder_input = none ∨
        short_frame.encoded ≤ 0) ∧
      (bluetooth_a2dp_write sample_io sample_data (0 : Int) 16 sample_pcm 20 short_frame (fun _ n => n)).data.hw_ptr = sample_data.hw_ptr ∨
     (bluetooth_a2dp_write sample_io sample_data (0 : Int) 16 sample_pcm 20 short_frame (fun _ n => n)).encoder_input ≠ none ∧
      0 < short_frame.encoded ∧
      (bluetooth_a2dp_write sample_io sample_data (0 : Int) 16 sample_pcm 20 short_frame (fun _ n => n)).data.hw_ptr =
        (sample_data.hw_ptr + Int.tdiv short_frame.encoded ((16 / 8 : Nat) : Int)) % (sample_io.buffer_size : Int) ∧
      0 ≤ (bluetooth_a2dp_write sample_io sample_data (0 : Int) 16 sample_pcm 20 short_frame (fun _ n => n)).data.hw_ptr ∧
      (bluetooth_a2dp_write sample_io sample_data (0 : Int) 16 sample_pcm 20 short_frame (fun _ n => n)).data.hw_ptr <
        (sample_io.buffer_size : Int))) :=
  ⟨by decide,
    hw_ptr_advances_on_completion sample_io sample_data 16 sample_pcm 20 40 0 0 short_frame
      (fun _ n => n) (by decide)⟩

/-! ## The raw write path: one packet in one call -/

/-- C15: with an empty accumulation buffer, a positive frame size, a positive
ring-buffer size and a packet length that fits the transfer buffer
(`pkt_len ≤ BUFFER_SIZE`), a call of `bluetooth_hsp_write` that is offered
exactly one packet length of frames (`size * frame_size = pkt_len`, the bytes
being in the caller's area) and whose send returns a positive count hands
exactly those `pkt_len` bytes, all from inside the buffer, to the one `send`,
resets the fill counter to 0, sets the position counter to
`(hw_ptr + pkt_len / frame_size) mod buffer_size` (where
`pkt_len / frame_size = size`), and returns `size`. -/
theorem hsp_write_one_packet (io : snd_pcm_ioplug_t) (data : bluetooth_data) (step : Nat)
    (buff : List Nat) (size : Nat) (rsend errno : Int)
    (hempty : data.count = 0) (hfs : 0 < step / 8) (hbs : 0 < io.buffer_size)
    (hcap : data.cfg.pkt_len ≤ BUFFER_SIZE)
    (hsize : size * (step / 8) = data.cfg.pkt_len)
    (hbuff : data.cfg.pkt_len ≤ buff.length)
    (hsend : 0 < rsend) :
    (bluetooth_hsp_write io data step buff size rsend errno).sent =
      some (buff.take data.cfg.pkt_len) ∧
    (buff.take data.cfg.pkt_len).length = data.cfg.pkt_len ∧
    (buff.take data.cfg.pkt_len).length ≤ BUFFER_SIZE ∧
    (bluetooth_hsp_write io data step buff size rsend errno).data.count = 0 ∧
    (bluetooth_hsp_write io data step buff size rsend errno).data.hw_ptr =
      (data.hw_ptr + ((data.cfg.pkt_len / (step / 8) : Nat) : Int)) % (io.buffer_size : Int) ∧
    data.cfg.pkt_len / (step / 8) = size ∧
    0 ≤ (bluetooth_hsp_write io data step buff size rsend errno).data.hw_ptr ∧
    (bluetooth_hsp_write io data step buff size rsend errno).data.hw_ptr < (io.buffer_size : Int) ∧
    (bluetooth_hsp_write io data step buff size rsend errno).ret = (size : Int) := by
  have hbs' : (0 : Int) < (io.buffer_size : Int) := by exact_mod_cast hbs
  have hsz : (size : Int) * ((step / 8 : Nat) : Int) = (data.cfg.pkt_len : Int) := by
    exact_mod_cast hsize
  have hF : frames_that_fit data.count size ((step / 8 : Nat) : Int) (data.cfg.pkt_len : Int) =
      (size : Int) := by
    unfold frames_that_fit
    rw [if_pos (by rw [hempty, hsz]; omega)]
  have hdiv : data.cfg.pkt_len / (step / 8) = size := by
    rw [← hsize]; exact Nat.mul_div_cancel _ hfs
  have htd : Int.tdiv (data.cfg.pkt_len : Int) ((step / 8 : Nat) : Int) =
      ((data.cfg.pkt_len / (step / 8) : Nat) : Int) := by
    rw [Int.tdiv_eq_ediv (by omega) (by omega)]; norm_cast
  have hn : (((step / 8 : Nat) : Int) * (size : Int)).toNat = data.cfg.pkt_len := by
    rw [mul_comm, hsz]; simp
  have hcount : data.count +
      frames_that_fit data.count size ((step / 8 : Nat) : Int) (data.cfg.pkt_len : Int) *
        ((step / 8 : Nat) : Int) = (data.cfg.pkt_len : Int) := by
    rw [hF, hempty, hsz]; omega
  have hsent : (bluetooth_hsp_write io data step buff size rsend errno) =
      { ret := (size : Int)
        data := { data with
          buffer := memcpy data.buffer 0 buff data.cfg.pkt_len
          count := 0
          hw_ptr := (data.hw_ptr + ((data.cfg.pkt_len / (step / 8) : Nat) : Int)) %
            (io.buffer_size : Int) }
        sent := some ((memcpy data.buffer 0 buff data.cfg.pkt_len).take data.cfg.pkt_len) } := by
    unfold bluetooth_hsp_write
    simp only
    rw [if_neg (by rw [hcount]; simp), if_pos hsend, hF, hn, htd, hempty]
    rfl
  have hl : (buff.take data.cfg.pkt_len).length = data.cfg.pkt_len := by simp [hbuff]
  rw [hsent]
  refine ⟨?_, hl, by rw [hl]; exact hcap, rfl, rfl, hdiv, Int.emod_nonneg _ (by omega),
    Int.emod_lt_of_pos _ hbs', rfl⟩
  simp [memcpy, store, List.take_append_of_le_length, hbuff]

theorem hsp_write_one_packet_witness :
    (sample_data.count = 0) ∧
    (0 < 16 / 8) ∧
    (0 < sample_io.buffer_size) ∧
    (sample_data.cfg.pkt_len ≤ BUFFER_SIZE) ∧
    (20 * (16 / 8) = sample_data.cfg.pkt_len) ∧
    (sample_data.cfg.pkt_len ≤ sample_pcm.length) ∧
    (0 < (40 : Int)) ∧
    ((bluetooth_hsp_write sample_io sample_data 16 sample_pcm 20 (40 : Int) (0 : Int)).sent =
      some (sample_pcm.take sample_data.cfg.pkt_len) ∧
    (sample_pcm.take sample_data.cfg.pkt_len).length = sample_data.cfg.pkt_len ∧
    (sample_pcm.take sample_data.cfg.pkt_len).length ≤ BUFFER_SIZE ∧
    (bluetooth_hsp_write sample_io sample_data 16 sample_pcm 20 (40 : Int) (0 : Int)).data.count = 0 ∧
    (bluetooth_hsp_write sample_io sample_data 16 sample_pcm 20 (40 : Int) (0 : Int)).data.hw_ptr =
      (sample_data.hw_ptr + ((sample_data.cfg.pkt_len / (16 / 8) : Nat) : Int)) % (sample_io.buffer_size : Int) ∧
    sample_data.cfg.pkt_len / (16 / 8) = 20 ∧
    0 ≤ (bluetooth_hsp_write sample_io sample_data 16 sample_pcm 20 (40 : Int) (0 : Int)).data.hw_ptr ∧
    (bluetooth_hsp_write sample_io sample_data 16 sample_pcm 20 (40 : Int) (0 : Int)).data.hw_ptr < (sample_io.buffer_size : Int) ∧
    (bluetooth_hsp_write sample_io sample_data 16 sample_pcm 20 (40 : Int) (0 : Int)).ret = (20 : Int)) :=
  ⟨by decide, by decide, by decide, by decide, by decide, by decide, by decide,
    hsp_write_one_packet sample_io sample_data 16 sample_pcm 20 40 0
      (by decide) (by decide) (by decide) (by decide) (by decide) (by decide) (by decide)⟩

/-! ## The raw read path: a failed receive -/

theorem hsp_write_buffer (io : snd_pcm_ioplug_t) (data : bluetooth_data) (step : Nat)
    (buff : List Nat) (size : Nat) (rsend errno : Int) :
    (bluetooth_hsp_write io data step buff size rsend errno).data.buffer =
      memcpy data.buffer data.count.toNat buff
        (((step / 8 : Nat) : Int) *
          frames_that_fit data.count size ((step / 8 : Nat) : Int) (data.cfg.pkt_len : Int)).toNat := by
  unfold bluetooth_hsp_write
  simp only
  split_ifs <;> rfl

theorem a2dp_write_buffer (io : snd_pcm_ioplug_t) (data : bluetooth_data) (codesize : Int)
    (step : Nat) (buff : List Nat) (size : Nat) (enc : sbc_encode_result)
    (send : Nat → Int → Int) :
    (bluetooth_a2dp_write io data codesize step buff size enc send).data.buffer =
      store data.buffer data.count.toNat
        (memcpy_changeendian buff (((step / 8 : Nat) : Int) *
          frames_that_fit data.count size ((step / 8 : Nat) : Int)
            (a2dp_codesize data codesize))) := by
  unfold bluetooth_a2dp_write
  simp only [reserve_header_count, reserve_header_buffer]
  split_ifs
  · rfl
  · rfl
  · simp only [a2dp_append_buffer]

theorem store_inside (dst bytes : List Nat) (off : Nat) (h : off + bytes.length ≤ dst.length) :
    (store dst off bytes).length = dst.length ∧
    (store dst off bytes).take off = dst.take off ∧
    ((store dst off bytes).drop off).take bytes.length = bytes ∧
    ∀ m : Nat, bytes.length ≤ m → (store dst off bytes).drop (off + m) = dst.drop (off + m) := by
  have hoff : (dst.take off).length = off := by
    rw [List.length_take]; omega
  unfold store
  refine ⟨?_, ?_, ?_, ?_⟩
  · simp only [List.length_append, List.length_take, List.length_drop]
    omega
  · rw [List.append_assoc, List.take_append_of_le_length (by omega)]
    rw [List.take_take, min_self]
  · rw [List.append_assoc, List.drop_append_of_le_length (by omega)]
    rw [List.drop_eq_nil_of_le (by omega), List.nil_append, List.take_left']
    rfl
  · intro m hm
    rw [List.append_assoc, List.drop_append_eq_append_drop, List.drop_eq_nil_of_le (by omega),
      List.nil_append, hoff, List.drop_append_eq_append_drop,
      List.drop_eq_nil_of_le (by omega), List.nil_append, List.drop_drop]
    congr 1
    omega

theorem swab16_length_of_le (n : Nat) : ∀ src : List Nat, 2 * n ≤ src.length →
    (swab16 n src).length = 2 * n := by
  induction n with
  | zero => intro src _; cases src <;> rfl
  | succ k ih =>
    intro src h
    match src, h with
    | a :: b :: rest, h =>
      simp only [swab16, List.length_cons] at h ⊢
      rw [ih rest (by omega)]
      omega
    | [_], h => simp at h; omega
    | [], h => simp at h

theorem hsp_write_sent_none_iff (io : snd_pcm_ioplug_t) (data : bluetooth_data) (step : Nat)
    (buff : List Nat) (size : Nat) (rsend errno : Int) :
    (bluetooth_hsp_write io data step buff size rsend errno).sent = none ↔
      data.count +
        frames_that_fit data.count size ((step / 8 : Nat) : Int) (data.cfg.pkt_len : Int) *
          ((step / 8 : Nat) : Int) ≠ (data.cfg.pkt_len : Int) := by
  unfold bluetooth_hsp_write
  simp only
  generalize ((step / 8 : Nat) : Int) = fs
  split_ifs with h1 <;> simp [h1]

theorem a2dp_write_encoder_input_none_iff (io : snd_pcm_ioplug_t) (data : bluetooth_data)
    (codesize : Int) (step : Nat) (buff : List Nat) (size : Nat) (enc : sbc_encode_result)
    (send : Nat → Int → Int) :
    (bluetooth_a2dp_write io data codesize step buff size enc send).encoder_input = none ↔
      data.count +
        frames_that_fit data.count size ((step / 8 : Nat) : Int)
            (a2dp_codesize data codesize) *
          ((step / 8 : Nat) : Int) ≠ a2dp_codesize data codesize := by
  unfold bluetooth_a2dp_write
  simp only [reserve_header_count]
  generalize ((step / 8 : Nat) : Int) = fs
  split_ifs with h1 <;> simp [h1]

/-- C17: in a write-path transfer call with a positive frame size, a fill
count in `[0, capacity]`, a capacity inside the transfer buffer
(`capacity ≤ BUFFER_SIZE`, the buffer being `BUFFER_SIZE` bytes) and a caller's
area that holds the `size` frames offered, the number of frames the code
copies is `F = min(size, floor((capacity - count) / frame_size))`.  It lies in
`[0, size]` and `count + F * frame_size ≤ capacity`.  The buffer keeps its
length, its bytes before `count` and from `count + F * frame_size` on are
untouched, and the bytes between are the first `F * frame_size` bytes of the
caller's area (raw path) or their byte-swapped 16-bit words (SBC path).  The
buffer is left not full (no send, no encode) exactly when
`count + F * frame_size < capacity`, and then the call returns `F` with the
fill count `count + F * frame_size`.  The raw call (state `data`) and the SBC
call (state `data2`) are taken independently of each other. -/
theorem write_frames_copied (io : snd_pcm_ioplug_t) (data : bluetooth_data) (step : Nat)
    (buff : List Nat) (size : Nat) (rsend errno : Int)
    (io2 : snd_pcm_ioplug_t) (data2 : bluetooth_data) (step2 : Nat) (buff2 : List Nat)
    (size2 : Nat) (codesize : Int) (enc : sbc_encode_result) (send : Nat → Int → Int)
    (hfs : 0 < step / 8) (h0 : 0 ≤ data.count)
    (hraw : data.count ≤ (data.cfg.pkt_len : Int))
    (hcap : data.cfg.pkt_len ≤ BUFFER_SIZE)
    (hlen : data.buffer.length = BUFFER_SIZE)
    (harea : size * (step / 8) ≤ buff.length)
    (hfs2 : 0 < step2 / 8) (h02 : 0 ≤ data2.count)
    (hsbc : data2.count ≤ a2dp_codesize data2 codesize)
    (hcap2 : a2dp_codesize data2 codesize ≤ (BUFFER_SIZE : Int))
    (hlen2 : data2.buffer.length = BUFFER_SIZE)
    (harea2 : size2 * (step2 / 8) ≤ buff2.length) :
    (frames_that_fit data.count size ((step / 8 : Nat) : Int) (data.cfg.pkt_len : Int) =
        claimed_frames data.count size ((step / 8 : Nat) : Int) (data.cfg.pkt_len : Int) ∧
     0 ≤ claimed_frames data.count size ((step / 8 : Nat) : Int) (data.cfg.pkt_len : Int) ∧
     claimed_frames data.count size ((step / 8 : Nat) : Int) (data.cfg.pkt_len : Int) ≤
        (size : Int) ∧
     data.count +
        claimed_frames data.count size ((step / 8 : Nat) : Int) (data.cfg.pkt_len : Int) *
          ((step / 8 : Nat) : Int) ≤ (data.cfg.pkt_len : Int) ∧
     (bluetooth_hsp_write io data step buff size rsend errno).data.buffer.length = BUFFER_SIZE ∧
     (bluetooth_hsp_write io data step buff size rsend errno).data.buffer.take data.count.toNat =
        data.buffer.take data.count.toNat ∧
     ((bluetooth_hsp_write io data step buff size rsend errno).data.buffer.drop
          data.count.toNat).take
        (claimed_frames data.count size ((step / 8 : Nat) : Int) (data.cfg.pkt_len : Int) *
          ((step / 8 : Nat) : Int)).toNat =
        buff.take
          (claimed_frames data.count size ((step / 8 : Nat) : Int) (data.cfg.pkt_len : Int) *
            ((step / 8 : Nat) : Int)).toNat ∧
     (bluetooth_hsp_write io data step buff size rsend errno).data.buffer.drop
        (data.count +
          claimed_frames data.count size ((step / 8 : Nat) : Int) (data.cfg.pkt_len : Int) *
            ((step / 8 : Nat) : Int)).toNat =
        data.buffer.drop
          (data.count +
            claimed_frames data.count size ((step / 8 : Nat) : Int) (data.cfg.pkt_len : Int) *
              ((step / 8 : Nat) : Int)).toNat ∧
     ((bluetooth_hsp_write io data step buff size rsend errno).sent = none ↔
        data.count +
          claimed_frames data.count size ((step / 8 : Nat) : Int) (data.cfg.pkt_len : Int) *
            ((step / 8 : Nat) : Int) < (data.cfg.pkt_len : Int)) ∧
     ((bluetooth_hsp_write io data step buff size rsend errno).sent ≠ none ∨
      (bluetooth_hsp_write io data step buff size rsend errno).ret =
          claimed_frames data.count size ((step / 8 : Nat) : Int) (data.cfg.pkt_len : Int) ∧
        (bluetooth_hsp_write io data step buff size rsend errno).data.count =
          data.count +
            claimed_frames data.count size ((step / 8 : Nat) : Int) (data.cfg.pkt_len : Int) *
              ((step / 8 : Nat) : Int))) ∧
    (frames_that_fit data2.count size2 ((step2 / 8 : Nat) : Int) (a2dp_codesize data2 codesize) =
        claimed_frames data2.count size2 ((step2 / 8 : Nat) : Int)
          (a2dp_codesize data2 codesize) ∧
     0 ≤ claimed_frames data2.count size2 ((step2 / 8 : Nat) : Int)
          (a2dp_codesize data2 codesize) ∧
     claimed_frames data2.count size2 ((step2 / 8 : Nat) : Int) (a2dp_codesize data2 codesize) ≤
        (size2 : Int) ∧
     data2.count +
        claimed_frames data2.count size2 ((step2 / 8 : Nat) : Int)
            (a2dp_codesize data2 codesize) *
          ((step2 / 8 : Nat) : Int) ≤ a2dp_codesize data2 codesize ∧
     (bluetooth_a2dp_write io2 data2 codesize step2 buff2 size2 enc send).data.buffer.length =
        BUFFER_SIZE ∧
     (bluetooth_a2dp_write io2 data2 codesize step2 buff2 size2 enc send).data.buffer.take
          data2.count.toNat =
        data2.buffer.take data2.count.toNat ∧
     ((bluetooth_a2dp_write io2 data2 codesize step2 buff2 size2 enc send).data.buffer.drop
          data2.count.toNat).take
        (2 * ((claimed_frames data2.count size2 ((step2 / 8 : Nat) : Int)
            (a2dp_codesize data2 codesize) * ((step2 / 8 : Nat) : Int)).toNat / 2)) =
        memcpy_changeendian buff2
          (((step2 / 8 : Nat) : Int) *
            claimed_frames data2.count size2 ((step2 / 8 : Nat) : Int)
              (a2dp_codesize data2 codesize)) ∧
     (bluetooth_a2dp_write io2 data2 codesize step2 buff2 size2 enc send).data.buffer.drop
        (data2.count +
          claimed_frames data2.count size2 ((step2 / 8 : Nat) : Int)
              (a2dp_codesize data2 codesize) *
            ((step2 / 8 : Nat) : Int)).toNat =
        data2.buffer.drop
          (data2.count +
            claimed_frames data2.count size2 ((step2 / 8 : Nat) : Int)
                (a2dp_codesize data2 codesize) *
              ((step2 / 8 : Nat) : Int)).toNat ∧
     ((bluetooth_a2dp_write io2 data2 codesize step2 buff2 size2 enc send).encoder_input = none ↔
        data2.count +
          claimed_frames data2.count size2 ((step2 / 8 : Nat) : Int)
              (a2dp_codesize data2 codesize) *
            ((step2 / 8 : Nat) : Int) < a2dp_codesize data2 codesize) ∧
     ((bluetooth_a2dp_write io2 data2 codesize step2 buff2 size2 enc send).encoder_input ≠ none ∨
      (bluetooth_a2dp_write io2 data2 codesize step2 buff2 size2 enc send).ret =
          claimed_frames data2.count size2 ((step2 / 8 : Nat) : Int)
            (a2dp_codesize data2 codesize) ∧
        (bluetooth_a2dp_write io2 data2 codesize step2 buff2 size2 enc send).data.count =
          data2.count +
            claimed_frames data2.count size2 ((step2 / 8 : Nat) : Int)
                (a2dp_codesize data2 codesize) *
              ((step2 / 8 : Nat) : Int))) := by
  have hfs' : (0 : Int) < ((step / 8 : Nat) : Int) := by exact_mod_cast hfs
  have hfs2' : (0 : Int) < ((step2 / 8 : Nat) : Int) := by exact_mod_cast hfs2
  have hB : (BUFFER_SIZE : Int) = 2048 := rfl
  have harea' : (size : Int) * ((step / 8 : Nat) : Int) ≤ (buff.length : Int) := by
    exact_mod_cast harea
  have harea2' : (size2 : Int) * ((step2 / 8 : Nat) : Int) ≤ (buff2.length : Int) := by
    exact_mod_cast harea2
  have hcap' : (data.cfg.pkt_len : Int) ≤ (BUFFER_SIZE : Int) := by exact_mod_cast hcap
  have e1 : frames_that_fit data.count size ((step / 8 : Nat) : Int) (data.cfg.pkt_len : Int) =
      claimed_frames data.count size ((step / 8 : Nat) : Int) (data.cfg.pkt_len : Int) :=
    frames_that_fit_eq_min data.count size _ _ hraw hfs'
  have e2 : frames_that_fit data2.count size2 ((step2 / 8 : Nat) : Int)
      (a2dp_codesize data2 codesize) =
      claimed_frames data2.count size2 ((step2 / 8 : Nat) : Int) (a2dp_codesize data2 codesize) :=
    frames_that_fit_eq_min data2.count size2 _ _ hsbc hfs2'
  have b1 := frames_that_fit_bounds data.count size _ _ hraw hfs'
  have b2 := frames_that_fit_bounds data2.count size2 _ _ hsbc hfs2'
  rw [e1] at b1
  rw [e2] at b2
  have l1 : claimed_frames data.count size ((step / 8 : Nat) : Int) (data.cfg.pkt_len : Int) ≤
      (size : Int) := min_le_left _ _
  have l2 : claimed_frames data2.count size2 ((step2 / 8 : Nat) : Int)
      (a2dp_codesize data2 codesize) ≤ (size2 : Int) := min_le_left _ _
  have u1 := hsp_write_buffer io data step buff size rsend errno
  have u2 := a2dp_write_buffer io2 data2 codesize step2 buff2 size2 enc send
  rw [e1] at u1
  rw [e2] at u2
  constructor
  · have hFs : claimed_frames data.count size ((step / 8 : Nat) : Int) (data.cfg.pkt_len : Int) *
        ((step / 8 : Nat) : Int) ≤ (size : Int) * ((step / 8 : Nat) : Int) :=
      mul_le_mul_of_nonneg_right l1 hfs'.le
    have hm := mul_nonneg b1.1 hfs'.le
    -- the bytes written
    have hbl : (buff.take (((step / 8 : Nat) : Int) *
        claimed_frames data.count size ((step / 8 : Nat) : Int)
          (data.cfg.pkt_len : Int)).toNat).length =
        (claimed_frames data.count size ((step / 8 : Nat) : Int) (data.cfg.pkt_len : Int) *
          ((step / 8 : Nat) : Int)).toNat := by
      rw [List.length_take, mul_comm]
      apply min_eq_left
      omega
    have hin : data.count.toNat + (buff.take (((step / 8 : Nat) : Int) *
        claimed_frames data.count size ((step / 8 : Nat) : Int)
          (data.cfg.pkt_len : Int)).toNat).length ≤ data.buffer.length := by
      rw [hbl, hlen]
      have := b1.2
      omega
    obtain ⟨s1, s2, s3, s4⟩ := store_inside data.buffer _ data.count.toNat hin
    have hsum : (data.count +
        claimed_frames data.count size ((step / 8 : Nat) : Int) (data.cfg.pkt_len : Int) *
          ((step / 8 : Nat) : Int)).toNat = data.count.toNat +
        (claimed_frames data.count size ((step / 8 : Nat) : Int) (data.cfg.pkt_len : Int) *
          ((step / 8 : Nat) : Int)).toNat := by omega
    refine ⟨e1, b1.1, l1, b1.2, ?_, ?_, ?_, ?_, ?_, ?_⟩
    · rw [u1]; unfold memcpy; rw [s1, hlen]
    · rw [u1]; unfold memcpy; exact s2
    · rw [u1]; unfold memcpy
      rw [hbl] at s3
      rw [s3, mul_comm]
    · rw [u1]; unfold memcpy
      rw [hsum]
      exact s4 _ (le_of_eq hbl)
    · rw [hsp_write_sent_none_iff, e1]
      have := b1.2
      constructor <;> intro h <;> omega
    · rw [← e1]
      unfold bluetooth_hsp_write
      simp only
      split_ifs
      · exact Or.inr ⟨rfl, rfl⟩
      all_goals exact Or.inl (by simp)
  · have hFs : claimed_frames data2.count size2 ((step2 / 8 : Nat) : Int)
          (a2dp_codesize data2 codesize) *
        ((step2 / 8 : Nat) : Int) ≤ (size2 : Int) * ((step2 / 8 : Nat) : Int) :=
      mul_le_mul_of_nonneg_right l2 hfs2'.le
    have hm := mul_nonneg b2.1 hfs2'.le
    have hbl : (memcpy_changeendian buff2 (((step2 / 8 : Nat) : Int) *
        claimed_frames data2.count size2 ((step2 / 8 : Nat) : Int)
          (a2dp_codesize data2 codesize))).length =
        2 * ((claimed_frames data2.count size2 ((step2 / 8 : Nat) : Int)
          (a2dp_codesize data2 codesize) * ((step2 / 8 : Nat) : Int)).toNat / 2) := by
      unfold memcpy_changeendian
      rw [mul_comm]
      have ht : (Int.tdiv (claimed_frames data2.count size2 ((step2 / 8 : Nat) : Int)
          (a2dp_codesize data2 codesize) * ((step2 / 8 : Nat) : Int)) 2).toNat =
          (claimed_frames data2.count size2 ((step2 / 8 : Nat) : Int)
            (a2dp_codesize data2 codesize) * ((step2 / 8 : Nat) : Int)).toNat / 2 := by
        rw [Int.tdiv_eq_ediv hm (by omega)]
        omega
      rw [ht]
      apply swab16_length_of_le
      omega
    have hin : data2.count.toNat + (memcpy_changeendian buff2 (((step2 / 8 : Nat) : Int) *
        claimed_frames data2.count size2 ((step2 / 8 : Nat) : Int)
          (a2dp_codesize data2 codesize))).length ≤ data2.buffer.length := by
      rw [hbl, hlen2]
      have := b2.2
      omega
    obtain ⟨s1, s2, s3, s4⟩ := store_inside data2.buffer _ data2.count.toNat hin
    have hsum : (data2.count +
        claimed_frames data2.count size2 ((step2 / 8 : Nat) : Int)
            (a2dp_codesize data2 codesize) *
          ((step2 / 8 : Nat) : Int)).toNat = data2.count.toNat +
        (claimed_frames data2.count size2 ((step2 / 8 : Nat) : Int)
            (a2dp_codesize data2 codesize) *
          ((step2 / 8 : Nat) : Int)).toNat := by omega
    refine ⟨e2, b2.1, l2, b2.2, ?_, ?_, ?_, ?_, ?_, ?_⟩
    · rw [u2, s1, hlen2]
    · rw [u2]; exact s2
    · rw [u2]
      rw [hbl] at s3
      exact s3
    · rw [u2, hsum]
      exact s4 _ (by rw [hbl]; omega)
    · rw [a2dp_write_encoder_input_none_iff, e2]
      have := b2.2
      constructor <;> intro h <;> omega
    · rw [← e2]
      unfold bluetooth_a2dp_write
      simp only [reserve_header_count]
      split_ifs
      · exact Or.inr ⟨rfl, rfl⟩
      all_goals exact Or.inl (by simp)

theorem write_frames_copied_witness :
    (0 < 16 / 8) ∧
    (0 ≤ sample_session.count) ∧
    (sample_session.count ≤ (sample_session.cfg.pkt_len : Int)) ∧
    (sample_session.cfg.pkt_len ≤ BUFFER_SIZE) ∧
    (sample_session.buffer.length = BUFFER_SIZE) ∧
    (30 * (16 / 8) ≤ sample_pcm.length) ∧
    (0 < 16 / 8) ∧
    (0 ≤ sample_session.count) ∧
    (sample_session.count ≤ a2dp_codesize sample_session (0 : Int)) ∧
    (a2dp_codesize sample_session (0 : Int) ≤ (BUFFER_SIZE : Int)) ∧
    (sample_session.buffer.length = BUFFER_SIZE) ∧
    (30 * (16 / 8) ≤ sample_pcm.length) ∧
    ((frames_that_fit sample_session.count 30 ((16 / 8 : Nat) : Int) (sample_session.cfg.pkt_len : Int) =
        claimed_frames sample_session.count 30 ((16 / 8 : Nat) : Int) (sample_session.cfg.pkt_len : Int) ∧
     0 ≤ claimed_frames sample_session.count 30 ((16 / 8 : Nat) : Int) (sample_session.cfg.pkt_len : Int) ∧
     claimed_frames sample_session.count 30 ((16 / 8 : Nat) : Int) (sample_session.cfg.pkt_len : Int) ≤
        (30 : Int) ∧
     sample_session.count +
        claimed_frames sample_session.count 30 ((16 / 8 : Nat) : Int) (sample_session.cfg.pkt_len : Int) *
          ((16 / 8 : Nat) : Int) ≤ (sample_session.cfg.pkt_len : Int) ∧
     (bluetooth_hsp_write sample_io sample_session 16 sample_pcm 30 (40 : Int) (0 : Int)).data.buffer.length = BUFFER_SIZE ∧
     (bluetooth_hsp_write sample_io sample_session 16 sample_pcm 30 (40 : Int) (0 : Int)).data.buffer.take sample_session.count.toNat =
        sample_session.buffer.take sample_session.count.toNat ∧
     ((bluetooth_hsp_write sample_io sample_session 16 sample_pcm 30 (40 : Int) (0 : Int)).data.buffer.drop
          sample_session.count.toNat).take
        (claimed_frames sample_session.count 30 ((16 / 8 : Nat) : Int) (sample_session.cfg.pkt_len : Int) *
          ((16 / 8 : Nat) : Int)).toNat =
        sample_pcm.take
          (claimed_frames sample_session.count 30 ((16 / 8 : Nat) : Int) (sample_session.cfg.pkt_len : Int) *
            ((16 / 8 : Nat) : Int)).toNat ∧
     (bluetooth_hsp_write sample_io sample_session 16 sample_pcm 30 (40 : Int) (0 : Int)).data.buffer.drop
        (sample_session.count +
          claimed_frames sample_session.count 30 ((16 / 8 : Nat) : Int) (sample_session.cfg.pkt_len : Int) *
            ((16 / 8 : Nat) : Int)).toNat =
        sample_session.buffer.drop
          (sample_session.count +
            claimed_frames sample_session.count 30 ((16 / 8 : Nat) : Int) (sample_session.cfg.pkt_len : Int) *
              ((16 / 8 : Nat) : Int)).toNat ∧
     ((bluetooth_hsp_write sample_io sample_session 16 sample_pcm 30 (40 : Int) (0 : Int)).sent = none ↔
        sample_session.count +
          claimed_frames sample_session.count 30 ((16 / 8 : Nat) : Int) (sample_session.cfg.pkt_len : Int) *
            ((16 / 8 : Nat) : Int) < (sample_session.cfg.pkt_len : Int)) ∧
     ((bluetooth_hsp_write sample_io sample_session 16 sample_pcm 30 (40 : Int) (0 : Int)).sent ≠ none ∨
      (bluetooth_hsp_write sample_io sample_session 16 sample_pcm 30 (40 : Int) (0 : Int)).ret =
          claimed_frames sample_session.count 30 ((16 / 8 : Nat) : Int) (sample_session.cfg.pkt_len : Int) ∧
        (bluetooth_hsp_write sample_io sample_session 16 sample_pcm 30 (40 : Int) (0 : Int)).data.count =
          sample_session.count +
            claimed_frames sample_session.count 30 ((16 / 8 : Nat) : Int) (sample_session.cfg.pkt_len : Int) *
              ((16 / 8 : Nat) : Int))) ∧
    (frames_that_fit sample_session.count 30 ((16 / 8 : Nat) : Int) (a2dp_codesize sample_session (0 : Int)) =
        claimed_frames sample_session.count 30 ((16 / 8 : Nat) : Int)
          (a2dp_codesize sample_session (0 : Int)) ∧
     0 ≤ claimed_frames sample_session.count 30 ((16 / 8 : Nat) : Int)
          (a2dp_codesize sample_session (0 : Int)) ∧
     claimed_frames sample_session.count 30 ((16 / 8 : Nat) : Int) (a2dp_codesize sample_session (0 : Int)) ≤
        (30 : Int) ∧
     sample_session.count +
        claimed_frames sample_session.count 30 ((16 / 8 : Nat) : Int)
            (a2dp_codesize sample_session (0 : Int)) *
          ((16 / 8 : Nat) : Int) ≤ a2dp_codesize sample_session (0 : Int) ∧
     (bluetooth_a2dp_write sample_io sample_session (0 : Int) 16 sample_pcm 30 short_frame (fun _ n => n)).data.buffer.length =
        BUFFER_SIZE ∧
     (bluetooth_a2dp_write sample_io sample_session (0 : Int) 16 sample_pcm 30 short_frame (fun _ n => n)).data.buffer.take
          sample_session.count.toNat =
        sample_session.buffer.take sample_session.count.toNat ∧
     ((bluetooth_a2dp_write sample_io sample_session (0 : Int) 16 sample_pcm 30 short_frame (fun _ n => n)).data.buffer.drop
          sample_session.count.toNat).take
        (2 * ((claimed_frames sample_session.count 30 ((16 / 8 : Nat) : Int)
            (a2dp_codesize sample_session (0 : Int)) * ((16 / 8 : Nat) : Int)).toNat / 2)) =
        memcpy_changeendian sample_pcm
          (((16 / 8 : Nat) : Int) *
            claimed_frames sample_session.count 30 ((16 / 8 : Nat) : Int)
              (a2dp_codesize sample_session (0 : Int))) ∧
     (bluetooth_a2dp_write sample_io sample_session (0 : Int) 16 sample_pcm 30 short_frame (fun _ n => n)).data.buffer.drop
        (sample_session.count +
          claimed_frames sample_session.count 30 ((16 / 8 : Nat) : Int)
              (a2dp_codesize sample_session (0 : Int)) *
            ((16 / 8 : Nat) : Int)).toNat =
        sample_session.buffer.drop
          (sample_session.count +
            claimed_frames sample_session.count 30 ((16 / 8 : Nat) : Int)
                (a2dp_codesize sample_session (0 : Int)) *
              ((16 / 8 : Nat) : Int)).toNat ∧
     ((bluetooth_a2dp_write sample_io sample_session (0 : Int) 16 sample_pcm 30 short_frame (fun _ n => n)).encoder_input = none ↔
        sample_session.count +
          claimed_frames sample_session.count 30 ((16 / 8 : Nat) : Int)
              (a2dp_codesize sample_session (0 : Int)) *
            ((16 / 8 : Nat) : Int) < a2dp_codesize sample_session (0 : Int)) ∧
     ((bluetooth_a2dp_write sample_io sample_session (0 : Int) 16 sample_pcm 30 short_frame (fun _ n => n)).encoder_input ≠ none ∨
      (bluetooth_a2dp_write sample_io sample_session (0 : Int) 16 sample_pcm 30 short_frame (fun _ n => n)).ret =
          claimed_frames sample_session.count 30 ((16 / 8 : Nat) : Int)
            (a2dp_codesize sample_session (0 : Int)) ∧
        (bluetooth_a2dp_write sample_io sample_session (0 : Int) 16 sample_pcm 30 short_frame (fun _ n => n)).data.count =
          sample_session.count +
            claimed_frames sample_session.count 30 ((16 / 8 : Nat) : Int)
                (a2dp_codesize sample_session (0 : Int)) *
              ((16 / 8 : Nat) : Int)))) :=
  ⟨by decide, by decide, by decide, by decide, List.length_replicate _ _, by decide, by decide, by decide, by decide, by decide, List.length_replicate _ _, by decide,
    write_frames_copied sample_io sample_session 16 sample_pcm 30 40 0
      sample_io sample_session 16 sample_pcm 30 0 short_frame (fun _ n => n)
      (by decide) (by decide) (by decide) (by decide) (List.length_replicate _ _) (by decide) (by decide) (by decide) (by decide) (by decide) (List.length_replicate _ _) (by decide)⟩

/-! ## The encode path: sessions and the first append -/

/-- C18, the code at the failing input: two sessions of one process with the
same negotiated parameters.  In the first, the function-static `codesize` is
0 at the first transfer call, the header space is reserved and the first
7-byte frame is stored at offset 13 (bytes-used 20).  In the second, the
session data is fresh (bytes-used 0) but `codesize` is still 32, so the block
that reserves the header space is skipped: the first frame is stored at offset
0 and bytes-used is 7, and the header written by the next flush overwrites
the frame.  A second session that negotiated 8 subbands and 8 blocks (its own
capacity would be 128) still hands 32 bytes to the encoder. -/
theorem a2dp_second_session_not_reserved :
    (bluetooth_init sample_ipc (sample_init sample_handshake)).1 = 0 ∧
    (bluetooth_init sample_ipc (sample_init sample_handshake)).2.a2dp.count = 0 ∧
    first_session.codesize = 32 ∧
    first_session.data.a2dp.count = 13 + 7 ∧
    (first_session.data.a2dp.buffer.drop 13).take 7 = short_frame.data ∧
    second_session.flush = none ∧
    second_session.data.a2dp.frame_count = 1 ∧
    second_session.data.a2dp.count = 7 ∧
    second_session.data.a2dp.buffer.take 7 = short_frame.data ∧
    (avdtp_write second_session.data (fun _ n => n)).packet.take 7 =
      [128, 1, 0, 0, 0, 0, 0] ∧
    a2dp_codesize (bluetooth_init sample_ipc (sample_init wide_handshake)).2 0 = 128 ∧
    second_session_wide.codesize = 32 ∧
    second_session_wide.encoder_input.map List.length = some 32 := by
  decide

/-! ## The encode path: when the flush happens -/

/-- C21, the code at the failing input: a session with packet length 128 and
7-byte frames reaches its first flush with 16 frames in the packet
(13 + 16 * 7 = 125 bytes in use, and the 17th frame would reach 132); the
frame-count field of the payload descriptor that `avdtp_write` sends is 0, not
16: the field has four bits and nothing flushes the packet after 15 frames. -/
theorem avdtp_write_frame_count_wraps :
    (bluetooth_init sample_ipc (sample_init roomy_handshake)).1 = 0 ∧
    sixteen_frames.1.cfg.pkt_len = 128 ∧
    sixteen_frames.1.a2dp.frame_count = 16 ∧
    sixteen_frames.1.a2dp.count = 13 + 16 * 7 ∧
    (bluetooth_a2dp_write sample_io sixteen_frames.1 sixteen_frames.2 16 sample_pcm 16
      short_frame (fun _ n => n)).flush.map (fun r => r.sends) = some [125] ∧
    (bluetooth_a2dp_write sample_io sixteen_frames.1 sixteen_frames.2 16 sample_pcm 16
      short_frame (fun _ n => n)).flush.map (fun r => r.packet.getD 12 0) = some 0 ∧
    (avdtp_write sixteen_frames.1 (fun _ n => n)).packet.getD 12 0 = 0 := by
  decide

theorem avdtp_requested_le (send : Nat → Int → Int) (c : Int)
    (h : ∀ k n, 0 ≤ send k n) : ∀ k, avdtp_requested send c k ≤ c := by
  intro k
  induction k with
  | zero => exact le_refl _
  | succ k ih =>
    have := h k (avdtp_requested send c k)
    simp only [avdtp_requested]
    omega

/-- As long as no `send` returns a negative value, no attempt of a flush asks
for more than the bytes in use at entry. -/
theorem avdtp_requests_le_of_nonneg (data : bluetooth_data) (send : Nat → Int → Int)
    (h : ∀ k n, 0 ≤ send k n) :
    ∀ x ∈ (avdtp_write data send).sends, x ≤ data.a2dp.count := by
  intro x hx
  rw [(avdtp_write_trace data send).1] at hx
  obtain ⟨k, -, rfl⟩ := List.mem_map.mp hx
  exact avdtp_requested_le send _ h k

/-- C22, the code at the failing input: the packet holds 20 bytes and every
`send` fails with -1; `a2dp->count -= written` then adds 1 per attempt, and the
byte counts passed to `send` are 20, 21, ..., 29, all but the first above the
20 bytes the packet holds.  With 2048 bytes in use the second attempt asks for
2049 bytes, one more than the packet buffer has. -/
theorem avdtp_write_requests_grow_on_error :
    sample_data.a2dp.count = 20 ∧
    sample_data.a2dp.count ≤ (BUFFER_SIZE : Int) ∧
    (avdtp_write sample_data (fun _ _ => -1)).sends =
      [20, 21, 22, 23, 24, 25, 26, 27, 28, 29] ∧
    (avdtp_write sample_data (fun _ _ => -1)).ret = -1 ∧
    (avdtp_write { sample_data with a2dp := { sample_a2dp with count := 2048 } }
      (fun _ _ => -1)).sends.getD 1 0 = 2049 := by
  decide

end PcmBluetooth
